import Mathlib

/-!
Verification of the gateway template-sync subsystem of the
openclaw-mission-control backend.

Python strings are modelled as `List Char` (or Lean `String`, whose data is a
`List Char`); bytes are modelled as `Nat` values below 256.  Fallible Python
code is modelled with `Option`/`Except`: `none`/`.error` marks an exception
escaping the modelled function.
-/

/-! ## Generic string helpers (models of Python str primitives) -/

/-- Model of Python `str.lower` restricted to ASCII (all strings that the
claims mention are ASCII). -/
def pyLowerChar (c : Char) : Char := c.toLower

/-- Lowercase a whole string, as `str.lower()`. -/
def pyLower (s : List Char) : List Char := s.map pyLowerChar

/-- `strStarts n h` is true when `n` is an initial run of `h`
(Python `h.startswith(n)`). -/
def strStarts : List Char → List Char → Bool
  | [], _ => true
  | _ :: _, [] => false
  | a :: as, b :: bs => a == b && strStarts as bs

/-- `strHas n h` is true when `n` occurs contiguously inside `h`
(Python `n in h`). -/
def strHas (n : List Char) : List Char → Bool
  | [] => strStarts n []
  | c :: rest => strStarts n (c :: rest) || strHas n rest

/-- Python `needle in hay` on Lean strings. -/
def strContains (hay needle : String) : Bool := strHas needle.data hay.data

/-- Model of Python `str.strip()` (default whitespace strip, both ends). -/
def pyStrip (s : List Char) : List Char :=
  ((s.dropWhile Char.isWhitespace).reverse.dropWhile Char.isWhitespace).reverse

/-- Model of Python `str.split(sep)` for a one-character separator.
`"".split(sep)` is `[""]`, matching Python. -/
def pySplitChar (sep : Char) : List Char → List (List Char)
  | [] => [[]]
  | c :: rest =>
    if c = sep then [] :: pySplitChar sep rest
    else
      match pySplitChar sep rest with
      | [] => [[c]]
      | f :: fs => (c :: f) :: fs

/-- All-digit run parsed to a number; `none` when empty or a non-digit occurs.
Helper for the model of Python `int(...)`. -/
def pyParseDigits (s : List Char) : Option Nat :=
  if s = [] then none
  else if s.all Char.isDigit then
    some (s.foldl (fun a c => a * 10 + (c.toNat - 48)) 0)
  else none

/-- Model of Python `int(str)`: strips whitespace, allows one optional sign,
then requires a non-empty digit run.  (Underscore digit grouping accepted by
CPython is not modelled; no claim depends on it.) -/
def pyInt (s : List Char) : Option Int :=
  match pyStrip s with
  | '+' :: rest => (pyParseDigits rest).map Int.ofNat
  | '-' :: rest => (pyParseDigits rest).map (fun n => -(n : Int))
  | rest => (pyParseDigits rest).map Int.ofNat

/-! ## Base64 (models of `base64.urlsafe_b64encode/b64decode`)

`base64.urlsafe_b64decode` translates `-`/`_` to `+`/`/` and calls
`binascii.a2b_base64` in non-strict mode; the decoder below is a faithful
transcription of that C state machine (quad position, leftover bits, pad
count), with `none` standing for `binascii.Error`. -/

/-- The urlsafe encoding alphabet, as indexed by `binascii.b2a_base64`
composed with the `+/` to `-_` translation done by `urlsafe_b64encode`. -/
def B64_URLSAFE_ALPHABET : List Char :=
  "ABCDEFGHIJKLMNOPQRSTUVWXYZabcdefghijklmnopqrstuvwxyz0123456789-_".data

/-- The standard decoding alphabet used by `binascii.a2b_base64`. -/
def B64_STD_ALPHABET : List Char :=
  "ABCDEFGHIJKLMNOPQRSTUVWXYZabcdefghijklmnopqrstuvwxyz0123456789+/".data

/-- Sextet value to encoded character. -/
def sextetChar (v : Nat) : Char := B64_URLSAFE_ALPHABET.getD v '_'

/-- The `-_` to `+/` translation performed by `urlsafe_b64decode` before
handing the text to the standard decoder. -/
def b64Translate (c : Char) : Char :=
  if c = '-' then '+' else if c = '_' then '/' else c

/-- Decoded sextet of one character after urlsafe translation; `none` for a
character outside the base64 alphabet (skipped by the non-strict decoder). -/
def decodeSextet (c : Char) : Option Nat :=
  B64_STD_ALPHABET.findIdx? (fun x => x == b64Translate c)

/-- `binascii.b2a_base64` with the final `=` padding stripped (the Python
helper `_b64encode` strips it with `rstrip("=")`), grouped three bytes to
four characters. -/
def b64encodeBytes : List Nat → List Char
  | [] => []
  | [a] => [sextetChar (a / 4), sextetChar (a % 4 * 16)]
  | [a, b] =>
    [sextetChar (a / 4), sextetChar (a % 4 * 16 + b / 16), sextetChar (b % 16 * 4)]
  | a :: b :: c :: rest =>
    sextetChar (a / 4) :: sextetChar (a % 4 * 16 + b / 16) ::
      sextetChar (b % 16 * 4 + c / 64) :: sextetChar (c % 64) :: b64encodeBytes rest

/-- The `binascii.a2b_base64` state machine in non-strict mode: `q` is the
quad position, `l` the leftover bits of the previous character, `pads` the
count of adjacent `=` seen at quad position two or later.  Invalid characters
are skipped; enough padding after quad position two terminates decoding;
a dangling quad at end of input is `binascii.Error`, modelled as `none`. -/
def a2bRun (q l pads : Nat) : List Char → Option (List Nat)
  | [] => if q = 0 then some [] else none
  | c :: rest =>
    if c = '=' then
      if 2 ≤ q then
        if 4 ≤ q + pads + 1 then some []
        else a2bRun q l (pads + 1) rest
      else a2bRun q l pads rest
    else
      match decodeSextet c with
      | none => a2bRun q l pads rest
      | some v =>
        match q with
        | 0 => a2bRun 1 v 0 rest
        | 1 => Option.map (fun out => (l * 4 + v / 16) :: out) (a2bRun 2 (v % 16) 0 rest)
        | 2 => Option.map (fun out => (l * 16 + v / 4) :: out) (a2bRun 3 (v % 4) 0 rest)
        | _ => Option.map (fun out => (l * 64 + v) :: out) (a2bRun 0 0 0 rest)

/-- `app.core.agent_tokens._b64decode`: re-appends `=` padding computed from
the input length, then decodes.  `none` models the `binascii.Error` that the
caller does not catch. -/
def pyB64Decode (value : List Char) : Option (List Nat) :=
  a2bRun 0 0 0 (value ++ List.replicate ((4 - value.length % 4) % 4) '=')

/-! ## Token codec (`app/core/agent_tokens.py`)

`hashlib.pbkdf2_hmac("sha256", password, salt, iterations)` is an external
primitive; the codec is parameterized by it (`pbkdf2 password salt
iterations`).  Raw tokens are byte lists (the UTF-8 encoding the Python code
performs). -/

def ITERATIONS : Nat := 200000

def SALT_BYTES : Nat := 16

/-- `hash_agent_token`: the salt is the `secrets.token_bytes` randomness,
passed explicitly. -/
def hash_agent_token (pbkdf2 : List Nat → List Nat → Nat → List Nat)
    (salt : List Nat) (token : List Nat) : List Char :=
  "pbkdf2_sha256".data ++ '$' ::
    ((Nat.repr ITERATIONS).data ++ '$' ::
      (b64encodeBytes salt ++ '$' :: b64encodeBytes (pbkdf2 token salt ITERATIONS)))

/-- `verify_agent_token`.  `some b` is a normal boolean return; `none` is an
exception escaping the function: the two `_b64decode` calls sit outside any
`try`, and `pbkdf2_hmac` raises on a non-positive iteration count (also
uncaught).  The final comparison is `hmac.compare_digest`, which on byte
strings returns true exactly for equal contents. -/
def verify_agent_token (pbkdf2 : List Nat → List Nat → Nat → List Nat)
    (token : List Nat) (stored_hash : List Char) : Option Bool :=
  match pySplitChar '$' stored_hash with
  | [algorithm, iterations, salt_b64, digest_b64] =>
    if algorithm ≠ "pbkdf2_sha256".data then some false
    else
      match pyInt iterations with
      | none => some false
      | some n =>
        if n < 1 then none
        else
          match pyB64Decode salt_b64, pyB64Decode digest_b64 with
          | some salt, some expected_digest =>
            some (pbkdf2 token salt n.toNat == expected_digest)
          | _, _ => none
  | _ => some false

/-! ## Transient gateway-error classification (`template_sync.py`)

`OpenClawGatewayError` is the gateway adapter's typed error; any other
exception is modelled by `PyExc.other`. -/

inductive PyExc
  | gateway (msg : String)
  | other (msg : String)
deriving DecidableEq

/-- Lowercase a Lean string, as Python `str.lower()` (ASCII). -/
def pyLowerStr (s : String) : String := ⟨pyLower s.data⟩

def _NON_TRANSIENT_GATEWAY_ERROR_MARKERS : List String := ["unsupported file"]

def _TRANSIENT_GATEWAY_ERROR_MARKERS : List String :=
  ["connect call failed",
   "connection refused",
   "errno 111",
   "econnrefused",
   "did not receive a valid http response",
   "no route to host",
   "network is unreachable",
   "host is down",
   "name or service not known",
   "received 1012",
   "service restart",
   "http 503",
   "http 502",
   "http 504",
   "temporar",
   "timeout",
   "timed out",
   "connection closed",
   "connection reset"]

def _is_transient_gateway_error (exc : PyExc) : Bool :=
  match exc with
  | .other _ => false
  | .gateway m =>
    let message := pyLowerStr m
    if message = "" then false
    else if _NON_TRANSIENT_GATEWAY_ERROR_MARKERS.any (fun mk => strContains message mk) then
      false
    else
      (strContains message "503" && strContains message "websocket") ||
        _TRANSIENT_GATEWAY_ERROR_MARKERS.any (fun mk => strContains message mk)

/-! ## Backoff driver (`_GatewayBackoff.run`)

Times are rationals (seconds).  The scenario of the claim fixes the wrapped
operation to one that always raises a transient gateway error, so one loop
iteration is described by the time the failing call took and the sampled
jitter factor `1 + random.uniform(-jitter, jitter)`.  `elapsed` is measured
from the moment `run` armed its deadline, so the code's
`remaining = deadline - now` is `timeout_s - elapsed` here. -/

structure BackoffCfg where
  timeout_s : ℚ
  base_delay_s : ℚ
  max_delay_s : ℚ
  jitter : ℚ
deriving DecidableEq

/-- The constructor defaults of `_GatewayBackoff`
(`timeout_s=600`, `base_delay_s=0.75`, `max_delay_s=30`, `jitter=0.2`). -/
def GATEWAY_BACKOFF_DEFAULT : BackoffCfg :=
  { timeout_s := 600, base_delay_s := 3/4, max_delay_s := 30, jitter := 1/5 }

def _gateway_timeout_message (lastError : String) : String :=
  "Gateway unreachable after 10 minutes (template sync timeout). Last error: " ++ lastError

/-- One retry sleep: `min(delay, remaining)`, scaled by the jitter factor when
jitter is non-zero, clamped to `[0, remaining]`. -/
def backoffSleep (cfg : BackoffCfg) (delay remaining factor : ℚ) : ℚ :=
  let s := min delay remaining
  let s := if cfg.jitter = 0 then s else s * factor
  max 0 (min s remaining)

/-- One observed iteration of the always-failing operation. -/
structure FailStep where
  opDur : ℚ
  factor : ℚ
  errMsg : String
deriving DecidableEq

inductive BackoffOutcome
  | timedOut (elapsed totalSleep : ℚ) (msg : String)
  | pending (delay elapsed totalSleep : ℚ)
deriving DecidableEq

/-- `_GatewayBackoff.run` on an operation that always raises a transient
gateway error, run for as many iterations as the trace supplies:
each iteration the call fails after `opDur` seconds; if the deadline has
passed, a `TimeoutError` wrapping the last error is raised (`timedOut`),
else the loop sleeps and doubles the delay up to the cap.  `pending` means
the trace ended with the loop still retrying. -/
def backoffRunFail (cfg : BackoffCfg) :
    ℚ → ℚ → ℚ → List FailStep → BackoffOutcome
  | delay, elapsed, slept, [] => .pending delay elapsed slept
  | delay, elapsed, slept, step :: rest =>
    let e1 := elapsed + step.opDur
    let remaining := cfg.timeout_s - e1
    if remaining ≤ 0 then .timedOut e1 slept (_gateway_timeout_message step.errMsg)
    else
      let s := backoffSleep cfg delay remaining step.factor
      backoffRunFail cfg (min (delay * 2) cfg.max_delay_s) (e1 + s) (slept + s) rest

/-! ## Agent records, slugs and gateway identities -/

def SESSION_KEY_PARTS_MIN : Nat := 2

/-- The agent row fields the sync core reads and writes. -/
structure Agent where
  id : Nat
  name : String
  board_id : Option Nat
  openclaw_session_id : Option String
  agent_token_hash : Option String
deriving DecidableEq

def isSlugChar (c : Char) : Bool := ('a' ≤ c && c ≤ 'z') || ('0' ≤ c && c ≤ '9')

/-- `re.sub(r"[^a-z0-9]+", "-", s)`, character by character: `inRun` records
that the previous character belonged to a non-slug run already replaced by a
hyphen. -/
def collapseRunsAux (inRun : Bool) : List Char → List Char
  | [] => []
  | c :: rest =>
    if isSlugChar c then c :: collapseRunsAux false rest
    else if inRun then collapseRunsAux true rest
    else '-' :: collapseRunsAux true rest

/-- `re.sub(r"[^a-z0-9]+", "-", s)`: every maximal run of non-slug characters
becomes one hyphen. -/
def collapseRuns (l : List Char) : List Char := collapseRunsAux false l

/-- `str.strip("-")`. -/
def trimDashes (l : List Char) : List Char :=
  ((l.dropWhile (fun c => c = '-')).reverse.dropWhile (fun c => c = '-')).reverse

/-- `_slugify`.  `fallback` is the `uuid4().hex` randomness used when the
slug comes out empty. -/
def _slugify (fallback : String) (value : String) : String :=
  let slug := trimDashes (collapseRuns (pyLower value.data))
  if slug = [] then fallback else ⟨slug⟩

/-- `_gateway_agent_id`: second `:`-delimited segment of a session key that
starts with `"agent:"` (when present and non-empty), else the display-name
slug. -/
def _gateway_agent_id (fallback : String) (agent : Agent) : String :=
  let session_key := agent.openclaw_session_id.getD ""
  let parts := pySplitChar ':' session_key.data
  if strStarts "agent:".data session_key.data ∧ SESSION_KEY_PARTS_MIN ≤ parts.length ∧
      parts.getD 1 [] ≠ [] then
    ⟨parts.getD 1 []⟩
  else
    _slugify fallback agent.name

/-! ## Provisioning message (`app/services/agent_provisioning.py`)

`templates` is the result of `_read_templates`: template name to content,
`""` for a file that is absent (or whose stripped content is empty). -/

def TEMPLATE_FILES : List String :=
  ["AGENTS.md", "BOOT.md", "BOOTSTRAP.md", "HEARTBEAT.md",
   "IDENTITY.md", "SOUL.md", "TOOLS.md", "USER.md"]

def _render_file_block (name content : String) : String :=
  let body := if content = "" then "# " ++ name ++ "\n\nTODO: add content\n" else content
  "\n" ++ name ++ "\n```md\n" ++ body ++ "\n```\n"

/-- `str.rstrip("/")`. -/
def pyRstripSlashes (s : String) : String :=
  ⟨(s.data.reverse.dropWhile (fun c => c = '/')).reverse⟩

/-- `_workspace_path`; `workspaceRoot` is `settings.openclaw_workspace_root`
(empty meaning unset, replaced by the default). -/
def _workspace_path (workspaceRoot fallback agentName : String) : String :=
  let root := if workspaceRoot = "" then "~/.openclaw/workspaces" else workspaceRoot
  let root := pyRstripSlashes root
  root ++ "/" ++ _slugify fallback agentName

/-- `"".join(...)` on a list of strings. -/
def strJoin : List String → String
  | [] => ""
  | s :: rest => s ++ strJoin rest

/-- `build_provisioning_message`; `baseUrl` is `settings.base_url`. -/
def build_provisioning_message (templates : String → String)
    (workspaceRoot baseUrl fallback : String) (agent : Agent) : String :=
  let agent_id := _slugify fallback agent.name
  let workspace_path := _workspace_path workspaceRoot fallback agent.name
  let session_key := agent.openclaw_session_id.getD ""
  let file_blocks :=
    strJoin (TEMPLATE_FILES.map (fun n => _render_file_block n (templates n)))
  "Provision a new OpenClaw agent workspace.\n\n"
    ++ "Agent name: " ++ agent.name ++ "\n"
    ++ "Agent id: " ++ agent_id ++ "\n"
    ++ "Session key: " ++ session_key ++ "\n"
    ++ "Workspace path: " ++ workspace_path ++ "\n\n"
    ++ "Base URL: " ++ (if baseUrl = "" then "UNSET" else baseUrl) ++ "\n\n"
    ++ "Steps:\n"
    ++ "1) Create the workspace directory.\n"
    ++ "2) Write the files below with the exact contents.\n"
    ++ "3) Set BASE_URL to " ++ (if baseUrl = "" then "\x7b\x7bBASE_URL\x7d\x7d" else baseUrl)
    ++ " for the agent runtime.\n"
    ++ "4) Replace placeholders like \x7b\x7bAGENT_NAME\x7d\x7d, \x7b\x7bAGENT_ID\x7d\x7d, \x7b\x7bBASE_URL\x7d\x7d, \x7b\x7bAUTH_TOKEN\x7d\x7d.\n"
    ++ "5) Leave BOOTSTRAP.md in place; the agent should run it on first start and delete it.\n"
    ++ "6) Register agent id in OpenClaw so it uses this workspace path.\n\n"
    ++ "Files:" ++ file_blocks

/-! ## Paused boards (`_paused_board_ids`)

The SQL query keeps chat rows whose trimmed, lowercased content is `/pause`
or `/resume`, and keeps only the row with the latest `created_at` per board;
the board is paused when that row says `/pause`. -/

structure BoardMemory where
  board_id : Nat
  content : String
  is_chat : Bool
  created_at : Nat
deriving DecidableEq

/-- `lower(trim(content))`. -/
def normCmd (s : String) : String := pyLowerStr ⟨pyStrip s.data⟩

/-- Does this row qualify for the pause-command query for board `b`? -/
def isPauseCommandFor (m : BoardMemory) (b : Nat) : Bool :=
  m.board_id == b && m.is_chat &&
    (normCmd m.content == "/pause" || normCmd m.content == "/resume")

/-- Latest qualifying command row for one board (`DISTINCT ON (board_id)`
under a `created_at DESC` ordering; on equal timestamps the earlier row in
the list is kept, matching the query's arbitrary-but-deterministic pick). -/
def latestChatCommand (mems : List BoardMemory) (b : Nat) : Option BoardMemory :=
  mems.foldl
    (fun acc m =>
      if isPauseCommandFor m b then
        match acc with
        | none => some m
        | some p => if p.created_at < m.created_at then some m else some p
      else acc)
    none

def boardPaused (mems : List BoardMemory) (b : Nat) : Bool :=
  match latestChatCommand mems b with
  | some m => normCmd m.content == "/pause"
  | none => false

def _paused_board_ids (mems : List BoardMemory) (boardIds : List Nat) : List Nat :=
  boardIds.filter (boardPaused mems)

/-! ## Sync orchestrator (`sync_gateway_templates`)

The gateway is an external process; each agent's interaction with it during
one sync run is summarised by the outcome of the two calls made on the
agent's behalf.  `verify` stands for `verify_agent_token` applied through
the real `pbkdf2`; `rots` enumerates the `(generate_agent_token(),
hash_agent_token(...))` pairs produced by successive rotations. -/

/-- Outcome of `_get_existing_auth_token` through the backoff driver:
`ok tok` is a normal return (`none`/empty meaning no usable token — any
plain gateway error was swallowed into `None` inside `_get_agent_file`);
`timeoutErr` is the `TimeoutError` the backoff driver raises once the
deadline has expired. -/
inductive FetchOutcome
  | ok (token : Option String)
  | timeoutErr (msg : String)
deriving DecidableEq

/-- Outcome of `provision_agent`/`provision_main_agent` through the backoff
driver.  Modelled from the spec: a fatal (non-transient) gateway adapter
error surfaces as an adapter-level error that the orchestrator's
`except (OSError, RuntimeError, ValueError)` arm catches (`adapterErr`) —
the adapter module itself is not part of the sources, and the spec's error
taxonomy says such failures are caught, counted as skipped, and reported
per-agent. -/
inductive ProvisionOutcome
  | ok
  | timeoutErr (msg : String)
  | adapterErr (msg : String)
deriving DecidableEq

structure AgentEnv where
  fetch : FetchOutcome
  provision : ProvisionOutcome
deriving DecidableEq

/-- Outcome of `_gateway_default_agent_id` for the main agent. -/
inductive ResolveOutcome
  | resolved (gatewayAgentId : String)
  | unresolved
  | timeoutErr (msg : String)
deriving DecidableEq

structure MainEnv where
  resolve : ResolveOutcome
  fetch : FetchOutcome
  provision : ProvisionOutcome
deriving DecidableEq

/-- One entry of the result's error list. -/
structure GatewayTemplatesSyncError where
  agent_id : Option Nat
  agent_name : Option String
  board_id : Option Nat
  message : String
deriving DecidableEq

/-- The counts and error list of `GatewayTemplatesSyncResult` (the echoed
`gateway_id`/`include_main`/`reset_sessions` fields are plain copies of the
inputs and are not modelled). -/
structure GatewayTemplatesSyncResult where
  agents_updated : Nat
  agents_skipped : Nat
  main_updated : Bool
  errors : List GatewayTemplatesSyncError
deriving DecidableEq

structure SyncLoopState where
  res : GatewayTemplatesSyncResult
  rotIndex : Nat
  done : List Agent
deriving DecidableEq

/-- The token read/rotate/verify/provision tail of one iteration of the
per-agent loop (lines after the board and pause guards). -/
def syncAgentTokenAndProvision (verify : String → String → Bool)
    (rots : Nat → String × String) (rotate_tokens : Bool)
    (st : SyncLoopState) (agent : Agent) (b : Nat) (env : AgentEnv)
    (authToken₀ : Option String) : SyncLoopState × Bool :=
  let noTok : Bool := authToken₀.getD "" == ""
  if noTok && !rotate_tokens then
    ({ st with
        res := { st.res with
          agents_skipped := st.res.agents_skipped + 1,
          errors := st.res.errors ++
            [⟨some agent.id, some agent.name, some b,
              "Skipping agent: unable to read AUTH_TOKEN from TOOLS.md (run with rotate_tokens=true to re-key)."⟩] },
        done := st.done ++ [agent] }, true)
  else
    let s1 : Agent × String × Nat :=
      if noTok then
        (({ agent with agent_token_hash := some (rots st.rotIndex).2 } : Agent),
          (rots st.rotIndex).1, st.rotIndex + 1)
      else (agent, authToken₀.getD "", st.rotIndex)
    let agent1 := s1.1
    let authToken1 := s1.2.1
    let rix1 := s1.2.2
    let mismatch : Bool :=
      !(agent1.agent_token_hash.getD "" == "") &&
        !(verify authToken1 (agent1.agent_token_hash.getD ""))
    let s2 : Agent × Nat × List GatewayTemplatesSyncError :=
      if mismatch then
        if rotate_tokens then
          (({ agent1 with agent_token_hash := some (rots rix1).2 } : Agent), rix1 + 1, [])
        else
          (agent1, rix1,
            [⟨some agent.id, some agent.name, some b,
              "Warning: AUTH_TOKEN in TOOLS.md does not match backend token hash (agent auth may be broken)."⟩])
      else (agent1, rix1, [])
    let agent2 := s2.1
    let rix2 := s2.2.1
    let warnErrs := s2.2.2
    match env.provision with
    | .ok =>
      ({ res := { st.res with
            agents_updated := st.res.agents_updated + 1,
            errors := st.res.errors ++ warnErrs },
          rotIndex := rix2, done := st.done ++ [agent2] }, true)
    | .timeoutErr m =>
      ({ res := { st.res with
            agents_skipped := st.res.agents_skipped + 1,
            errors := st.res.errors ++ warnErrs ++
              [⟨some agent.id, some agent.name, some b, m⟩] },
          rotIndex := rix2, done := st.done ++ [agent2] }, false)
    | .adapterErr m =>
      ({ res := { st.res with
            agents_skipped := st.res.agents_skipped + 1,
            errors := st.res.errors ++ warnErrs ++
              [⟨some agent.id, some agent.name, some b,
                "Failed to sync templates: " ++ m⟩] },
          rotIndex := rix2, done := st.done ++ [agent2] }, true)

/-- One iteration of the per-agent loop.  The second component is false when
the iteration executed `return result` (aborting the whole sync). -/
def syncAgentStep (verify : String → String → Bool)
    (rots : Nat → String × String) (rotate_tokens : Bool)
    (inScope paused : List Nat) (st : SyncLoopState) (agent : Agent)
    (env : AgentEnv) : SyncLoopState × Bool :=
  match (match agent.board_id with
         | some b => if b ∈ inScope then some b else none
         | none => none) with
  | none =>
    ({ st with
        res := { st.res with
          agents_skipped := st.res.agents_skipped + 1,
          errors := st.res.errors ++
            [⟨some agent.id, some agent.name, agent.board_id,
              "Skipping agent: board not found for agent."⟩] },
        done := st.done ++ [agent] }, true)
  | some b =>
    if b ∈ paused then
      ({ st with
          res := { st.res with agents_skipped := st.res.agents_skipped + 1 },
          done := st.done ++ [agent] }, true)
    else
      match env.fetch with
      | .timeoutErr m =>
        ({ st with
            res := { st.res with
              errors := st.res.errors ++ [⟨some agent.id, some agent.name, some b, m⟩] },
            done := st.done ++ [agent] }, false)
      | .ok tokOpt =>
        syncAgentTokenAndProvision verify rots rotate_tokens st agent b env tokOpt

/-- The per-agent loop.  On an early `return`, the remaining agents are left
untouched and carried into `done` so that `done` is always the full
post-state of the agent rows. -/
def syncAgentsLoop (verify : String → String → Bool)
    (rots : Nat → String × String) (rotate_tokens : Bool)
    (inScope paused : List Nat) :
    SyncLoopState → List (Agent × AgentEnv) → SyncLoopState × Bool
  | st, [] => (st, true)
  | st, (a, e) :: rest =>
    match syncAgentStep verify rots rotate_tokens inScope paused st a e with
    | (st', true) => syncAgentsLoop verify rots rotate_tokens inScope paused st' rest
    | (st', false) => ({ st' with done := st'.done ++ rest.map Prod.fst }, false)

/-- The main-agent phase (`if include_main:` block).  Returns the final
result, the post-state of the main-agent row (when one was found), and the
rotation counter. -/
def syncMainPhase (verify : String → String → Bool)
    (rots : Nat → String × String) (rotate_tokens include_main : Bool)
    (st : SyncLoopState) (mainAgent : Option (Agent × MainEnv)) :
    GatewayTemplatesSyncResult × Option Agent × Nat :=
  if !include_main then (st.res, mainAgent.map Prod.fst, st.rotIndex)
  else
    match mainAgent with
    | none =>
      ({ st.res with
          errors := st.res.errors ++
            [⟨none, none, none,
              "Gateway main agent record not found; skipping main agent template sync."⟩] },
        none, st.rotIndex)
    | some (ma, menv) =>
      match menv.resolve with
      | .timeoutErr m =>
        ({ st.res with errors := st.res.errors ++ [⟨some ma.id, some ma.name, none, m⟩] },
          some ma, st.rotIndex)
      | .unresolved =>
        ({ st.res with
            errors := st.res.errors ++
              [⟨some ma.id, some ma.name, none,
                "Unable to resolve gateway default agent id for main agent."⟩] },
          some ma, st.rotIndex)
      | .resolved _ =>
        match menv.fetch with
        | .timeoutErr m =>
          ({ st.res with errors := st.res.errors ++ [⟨some ma.id, some ma.name, none, m⟩] },
            some ma, st.rotIndex)
        | .ok tokOpt =>
          let noTok : Bool := tokOpt.getD "" == ""
          if noTok && !rotate_tokens then
            ({ st.res with
                errors := st.res.errors ++
                  [⟨some ma.id, some ma.name, none,
                    "Skipping main agent: unable to read AUTH_TOKEN from TOOLS.md."⟩] },
              some ma, st.rotIndex)
          else
            let s1 : Agent × String × Nat :=
              if noTok then
                (({ ma with agent_token_hash := some (rots st.rotIndex).2 } : Agent),
                  (rots st.rotIndex).1, st.rotIndex + 1)
              else (ma, tokOpt.getD "", st.rotIndex)
            let ma1 := s1.1
            let tok1 := s1.2.1
            let rix1 := s1.2.2
            let mismatch : Bool :=
              !(ma1.agent_token_hash.getD "" == "") &&
                !(verify tok1 (ma1.agent_token_hash.getD ""))
            let s2 : Agent × Nat × List GatewayTemplatesSyncError :=
              if mismatch then
                if rotate_tokens then
                  (({ ma1 with agent_token_hash := some (rots rix1).2 } : Agent), rix1 + 1, [])
                else
                  (ma1, rix1,
                    [⟨some ma.id, some ma.name, none,
                      "Warning: AUTH_TOKEN in TOOLS.md does not match backend token hash (main agent auth may be broken)."⟩])
              else (ma1, rix1, [])
            let ma2 := s2.1
            let rix2 := s2.2.1
            let warnErrs := s2.2.2
            match menv.provision with
            | .ok =>
              ({ st.res with
                  main_updated := true,
                  errors := st.res.errors ++ warnErrs },
                some ma2, rix2)
            | .timeoutErr m =>
              ({ st.res with
                  errors := st.res.errors ++ warnErrs ++ [⟨some ma.id, some ma.name, none, m⟩] },
                some ma2, rix2)
            | .adapterErr m =>
              ({ st.res with
                  errors := st.res.errors ++ warnErrs ++
                    [⟨some ma.id, some ma.name, none,
                      "Failed to sync main agent templates: " ++ m⟩] },
                some ma2, rix2)

/-- The inputs of one `sync_gateway_templates` invocation together with the
observed behavior of the gateway during it. -/
structure SyncInput where
  url_present : Bool
  probe : Option String
  boards : List Nat
  requested_board : Option Nat
  memories : List BoardMemory
  agents : List (Agent × AgentEnv)
  include_main : Bool
  rotate_tokens : Bool
  mainAgent : Option (Agent × MainEnv)

/-- Result of a run: the returned result record plus the post-state of the
agent rows the run could have written. -/
structure SyncOutput where
  res : GatewayTemplatesSyncResult
  agentsOut : List Agent
  mainOut : Option Agent
deriving DecidableEq

/-- `sync_gateway_templates`.  `probe = some msg` covers both a
`TimeoutError` and a fatal gateway error during the initial reachability
call — the code appends `str(exc)` and returns in both arms. -/
def sync_gateway_templates (verify : String → String → Bool)
    (rots : Nat → String × String) (inp : SyncInput) : SyncOutput :=
  let res0 : GatewayTemplatesSyncResult :=
    { agents_updated := 0, agents_skipped := 0, main_updated := false, errors := [] }
  if !inp.url_present then
    { res := { res0 with
        errors := [⟨none, none, none, "Gateway URL is not configured for this gateway."⟩] },
      agentsOut := inp.agents.map Prod.fst, mainOut := inp.mainAgent.map Prod.fst }
  else
    match inp.probe with
    | some m =>
      { res := { res0 with errors := [⟨none, none, none, m⟩] },
        agentsOut := inp.agents.map Prod.fst, mainOut := inp.mainAgent.map Prod.fst }
    | none =>
      match (match inp.requested_board with
             | some b => if b ∈ inp.boards then some [b] else none
             | none => some inp.boards) with
      | none =>
        { res := { res0 with
            errors := [⟨none, none, inp.requested_board,
              "Board does not belong to this gateway."⟩] },
          agentsOut := inp.agents.map Prod.fst, mainOut := inp.mainAgent.map Prod.fst }
      | some inScope =>
        let paused := _paused_board_ids inp.memories inScope
        let loopOut :=
          syncAgentsLoop verify rots inp.rotate_tokens inScope paused
            { res := res0, rotIndex := 0, done := [] } inp.agents
        let st := loopOut.1
        if loopOut.2 then
          let mainOut :=
            syncMainPhase verify rots inp.rotate_tokens inp.include_main st inp.mainAgent
          { res := mainOut.1, agentsOut := st.done, mainOut := mainOut.2.1 }
        else
          { res := st.res, agentsOut := st.done, mainOut := inp.mainAgent.map Prod.fst }

/-! # Theorems -/

/-! ## Base64 and digest-format lemmas -/

theorem decodeSextet_sextetChar : ∀ v < 64, decodeSextet (sextetChar v) = some v := by decide

theorem sextetChar_ne_pad : ∀ v < 64, sextetChar v ≠ '=' := by decide

theorem a2bRun_step0 {c : Char} {v : Nat} (h1 : ¬ c = '=') (h2 : decodeSextet c = some v)
    (l p : Nat) (rest : List Char) :
    a2bRun 0 l p (c :: rest) = a2bRun 1 v 0 rest := by
  simp [a2bRun, h1, h2]

theorem a2bRun_step1 {c : Char} {v : Nat} (h1 : ¬ c = '=') (h2 : decodeSextet c = some v)
    (l p : Nat) (rest : List Char) :
    a2bRun 1 l p (c :: rest) =
      Option.map (fun out => (l * 4 + v / 16) :: out) (a2bRun 2 (v % 16) 0 rest) := by
  simp [a2bRun, h1, h2]

theorem a2bRun_step2 {c : Char} {v : Nat} (h1 : ¬ c = '=') (h2 : decodeSextet c = some v)
    (l p : Nat) (rest : List Char) :
    a2bRun 2 l p (c :: rest) =
      Option.map (fun out => (l * 16 + v / 4) :: out) (a2bRun 3 (v % 4) 0 rest) := by
  simp [a2bRun, h1, h2]

theorem a2bRun_step3 {c : Char} {v : Nat} (h1 : ¬ c = '=') (h2 : decodeSextet c = some v)
    (l p : Nat) (rest : List Char) :
    a2bRun 3 l p (c :: rest) =
      Option.map (fun out => (l * 64 + v) :: out) (a2bRun 0 0 0 rest) := by
  simp [a2bRun, h1, h2]

theorem a2bRun_two_pads (l : Nat) (rest : List Char) :
    a2bRun 2 l 0 ('=' :: '=' :: rest) = some [] := by
  simp [a2bRun]

theorem a2bRun_one_pad (l : Nat) (rest : List Char) :
    a2bRun 3 l 0 ('=' :: rest) = some [] := by
  simp [a2bRun]

theorem a2b_encode_roundtrip :
    ∀ bs : List Nat, (∀ b ∈ bs, b < 256) →
      a2bRun 0 0 0
        (b64encodeBytes bs ++
          List.replicate ((4 - (b64encodeBytes bs).length % 4) % 4) '=') = some bs := by
  intro bs
  induction bs using b64encodeBytes.induct with
  | case1 =>
    intro _
    simp [b64encodeBytes, a2bRun]
  | case2 a =>
    intro h
    have ha : a < 256 := h a (by simp)
    have h1 : a / 4 < 64 := by omega
    have h2 : a % 4 * 16 < 64 := by omega
    simp only [b64encodeBytes, List.length_cons, List.length_nil]
    rw [show ((4 - (0 + 1 + 1) % 4) % 4) = 2 by norm_num]
    simp only [List.replicate, List.cons_append, List.nil_append]
    rw [a2bRun_step0 (sextetChar_ne_pad _ h1) (decodeSextet_sextetChar _ h1),
        a2bRun_step1 (sextetChar_ne_pad _ h2) (decodeSextet_sextetChar _ h2),
        a2bRun_two_pads]
    simp only [Option.map_some']
    congr 2
    omega
  | case3 a b =>
    intro h
    have ha : a < 256 := h a (by simp)
    have hb : b < 256 := h b (by simp)
    have h1 : a / 4 < 64 := by omega
    have h2 : a % 4 * 16 + b / 16 < 64 := by omega
    have h3 : b % 16 * 4 < 64 := by omega
    simp only [b64encodeBytes, List.length_cons, List.length_nil]
    rw [show ((4 - (0 + 1 + 1 + 1) % 4) % 4) = 1 by norm_num]
    simp only [List.replicate, List.cons_append, List.nil_append]
    rw [a2bRun_step0 (sextetChar_ne_pad _ h1) (decodeSextet_sextetChar _ h1),
        a2bRun_step1 (sextetChar_ne_pad _ h2) (decodeSextet_sextetChar _ h2),
        a2bRun_step2 (sextetChar_ne_pad _ h3) (decodeSextet_sextetChar _ h3),
        a2bRun_one_pad]
    simp only [Option.map_some']
    congr 2
    · omega
    · congr 1
      omega
  | case4 a b c rest ih =>
    intro h
    have ha : a < 256 := h a (by simp)
    have hb : b < 256 := h b (by simp)
    have hc : c < 256 := h c (by simp)
    have hrest : ∀ x ∈ rest, x < 256 := fun x hx => h x (by simp [hx])
    have h1 : a / 4 < 64 := by omega
    have h2 : a % 4 * 16 + b / 16 < 64 := by omega
    have h3 : b % 16 * 4 + c / 64 < 64 := by omega
    have h4 : c % 64 < 64 := by omega
    simp only [b64encodeBytes, List.length_cons, List.cons_append]
    have hpad : (4 - ((b64encodeBytes rest).length + 1 + 1 + 1 + 1) % 4) % 4
        = (4 - (b64encodeBytes rest).length % 4) % 4 := by omega
    rw [hpad]
    rw [a2bRun_step0 (sextetChar_ne_pad _ h1) (decodeSextet_sextetChar _ h1),
        a2bRun_step1 (sextetChar_ne_pad _ h2) (decodeSextet_sextetChar _ h2),
        a2bRun_step2 (sextetChar_ne_pad _ h3) (decodeSextet_sextetChar _ h3),
        a2bRun_step3 (sextetChar_ne_pad _ h4) (decodeSextet_sextetChar _ h4),
        ih hrest]
    simp only [Option.map_some']
    congr 2
    · omega
    · congr 1
      · omega
      · congr 1
        omega

theorem pySplitChar_no_sep {sep : Char} :
    ∀ {s : List Char}, (∀ x ∈ s, x ≠ sep) → pySplitChar sep s = [s] := by
  intro s
  induction s with
  | nil => intro _; rfl
  | cons c rest ih =>
    intro h
    have hc : ¬ c = sep := h c (by simp)
    have hr := ih (fun x hx => h x (by simp [hx]))
    simp [pySplitChar, hc, hr]

theorem pySplitChar_append {sep : Char} :
    ∀ {s : List Char} (t : List Char), (∀ x ∈ s, x ≠ sep) →
      pySplitChar sep (s ++ sep :: t) = s :: pySplitChar sep t := by
  intro s
  induction s with
  | nil => intro t _; simp [pySplitChar]
  | cons c rest ih =>
    intro t h
    have hc : ¬ c = sep := h c (by simp)
    have hr := ih t (fun x hx => h x (by simp [hx]))
    simp only [List.cons_append, pySplitChar, if_neg hc, List.append_eq, hr]

theorem sextetChar_ne_dollar (v : Nat) : sextetChar v ≠ '$' := by
  by_cases h : v < 64
  · exact (by decide : ∀ v < 64, sextetChar v ≠ '$') v h
  · have hlen : B64_URLSAFE_ALPHABET.length ≤ v := by
      have : B64_URLSAFE_ALPHABET.length = 64 := by decide
      omega
    unfold sextetChar
    rw [List.getD_eq_default _ _ hlen]
    decide

theorem b64encode_ne_dollar : ∀ (bs : List Nat), ∀ c ∈ b64encodeBytes bs, c ≠ '$' := by
  intro bs
  induction bs using b64encodeBytes.induct with
  | case1 => simp [b64encodeBytes]
  | case2 a =>
    simp only [b64encodeBytes, List.mem_cons, List.not_mem_nil, or_false]
    rintro c (rfl | rfl) <;> exact sextetChar_ne_dollar _
  | case3 a b =>
    simp only [b64encodeBytes, List.mem_cons, List.not_mem_nil, or_false]
    rintro c (rfl | rfl | rfl) <;> exact sextetChar_ne_dollar _
  | case4 a b c rest ih =>
    simp only [b64encodeBytes, List.mem_cons]
    rintro x (rfl | rfl | rfl | rfl | hx)
    · exact sextetChar_ne_dollar _
    · exact sextetChar_ne_dollar _
    · exact sextetChar_ne_dollar _
    · exact sextetChar_ne_dollar _
    · exact ih x hx

theorem pyB64Decode_encode (bs : List Nat) (h : ∀ b ∈ bs, b < 256) :
    pyB64Decode (b64encodeBytes bs) = some bs :=
  a2b_encode_roundtrip bs h

/-- Claim C3: for every raw token and every salt drawn by `hash_agent_token`
(and any pbkdf2 derivation function producing bytes), verifying the raw
token against its own fresh digest succeeds: the digest splits back into its
four fields, the algorithm tag and iteration count parse, both base64 fields
decode to the original bytes, and the recomputed derivation compares equal. -/
theorem token_roundtrip_verifies
    (pbkdf2 : List Nat → List Nat → Nat → List Nat) (salt token : List Nat)
    (hsalt : ∀ b ∈ salt, b < 256)
    (hdig : ∀ b ∈ pbkdf2 token salt ITERATIONS, b < 256) :
    verify_agent_token pbkdf2 token (hash_agent_token pbkdf2 salt token) = some true := by
  have hA : ∀ x ∈ ("pbkdf2_sha256".data : List Char), x ≠ '$' := by decide
  have hB : ∀ x ∈ ((Nat.repr ITERATIONS).data : List Char), x ≠ '$' := by decide
  have hsplit : pySplitChar '$' (hash_agent_token pbkdf2 salt token) =
      ["pbkdf2_sha256".data, (Nat.repr ITERATIONS).data, b64encodeBytes salt,
        b64encodeBytes (pbkdf2 token salt ITERATIONS)] := by
    unfold hash_agent_token
    rw [pySplitChar_append _ hA, pySplitChar_append _ hB,
        pySplitChar_append _ (b64encode_ne_dollar salt),
        pySplitChar_no_sep (b64encode_ne_dollar _)]
  simp only [verify_agent_token, hsplit]
  rw [show pyInt (Nat.repr ITERATIONS).data = some 200000 from by decide]
  simp only [show ¬ (("pbkdf2_sha256".data : List Char) ≠ "pbkdf2_sha256".data) from by simp,
    if_false]
  rw [if_neg (by norm_num), pyB64Decode_encode salt hsalt, pyB64Decode_encode _ hdig]
  simp [ITERATIONS]

/-- Concrete instance of claim C3's theorem. -/
theorem token_roundtrip_verifies_witness :
    (∀ b ∈ List.replicate SALT_BYTES 7, b < 256) ∧
      verify_agent_token (fun p s i => [(p.length + s.length + i) % 256]) [1, 2]
        (hash_agent_token (fun p s i => [(p.length + s.length + i) % 256])
          (List.replicate SALT_BYTES 7) [1, 2]) = some true :=
  ⟨by decide, token_roundtrip_verifies _ _ _ (by decide) (by decide)⟩

/-- Claim C4: `verify_agent_token` is claimed to fail closed (return false,
never raise) on any malformed digest, and it does for a wrong field count,
an unknown algorithm tag and a non-numeric iteration count — but a malformed
base64 segment makes the uncaught `binascii.Error` from `_b64decode` escape
(modelled by `none`): the digest `"pbkdf2_sha256$1$a$aa"` crashes the caller
instead of returning false. -/
theorem verify_agent_token_crashes_on_malformed_base64 :
    verify_agent_token (fun _ _ _ => []) [] "pbkdf2_sha256$1$a$aa".data = none ∧
    verify_agent_token (fun _ _ _ => []) [] "garbage".data = some false ∧
    verify_agent_token (fun _ _ _ => []) [] "unknown$1$aa$bb".data = some false ∧
    verify_agent_token (fun _ _ _ => []) [] "pbkdf2_sha256$notanint$aa$bb".data = some false := by
  decide

theorem strContains_empty_hay (needle : String) (h : needle ≠ "") :
    strContains "" needle = false := by
  have : needle.data ≠ [] := fun hd => h (by cases needle; simp_all)
  unfold strContains strHas strStarts
  match hn : needle.data, this with
  | [], hne => exact absurd rfl hne
  | c :: cs, _ => rfl

/-- Claim C6, counterexample to the claim as stated: a gateway error whose
message contains "Connection refused" is nevertheless not transient when the
message also carries a non-transient marker. -/
theorem transient_connection_refused_counterexample :
    strContains (pyLowerStr "Connection refused while sending unsupported file")
        "connection refused" = true ∧
      _is_transient_gateway_error
        (.gateway "Connection refused while sending unsupported file") = false := by
  decide

/-- Claim C6 (amended): an error is transient iff it is a gateway error
whose lowercased message matches a transient signature (the "503 plus
websocket" pair or one of the marker substrings) and matches no non-transient
signature; a message containing "connection refused" (any case) and no
non-transient marker is transient; a message containing "unsupported file"
is never transient; a non-gateway exception is never transient. -/
theorem transient_classifier_characterization (m : String) :
    (_is_transient_gateway_error (.gateway m) = true ↔
      ((strContains (pyLowerStr m) "503" && strContains (pyLowerStr m) "websocket") = true ∨
        ∃ mk ∈ _TRANSIENT_GATEWAY_ERROR_MARKERS, strContains (pyLowerStr m) mk = true) ∧
        ∀ mk ∈ _NON_TRANSIENT_GATEWAY_ERROR_MARKERS, strContains (pyLowerStr m) mk = false) ∧
    (strContains (pyLowerStr m) "connection refused" = true →
      (∀ mk ∈ _NON_TRANSIENT_GATEWAY_ERROR_MARKERS, strContains (pyLowerStr m) mk = false) →
      _is_transient_gateway_error (.gateway m) = true) ∧
    (strContains (pyLowerStr m) "unsupported file" = true →
      _is_transient_gateway_error (.gateway m) = false) ∧
    (∀ m2 : String, _is_transient_gateway_error (.other m2) = false) := by
  have hchar : _is_transient_gateway_error (.gateway m) =
      (if pyLowerStr m = "" then false
       else if _NON_TRANSIENT_GATEWAY_ERROR_MARKERS.any
           (fun mk => strContains (pyLowerStr m) mk) then false
       else (strContains (pyLowerStr m) "503" && strContains (pyLowerStr m) "websocket") ||
         _TRANSIENT_GATEWAY_ERROR_MARKERS.any (fun mk => strContains (pyLowerStr m) mk)) := rfl
  refine ⟨?_, ?_, ?_, fun _ => rfl⟩
  · rw [hchar]
    by_cases h0 : pyLowerStr m = ""
    · simp only [h0, if_pos rfl]
      constructor
      · intro hfalse; exact absurd hfalse (by simp)
      · rintro ⟨h1, -⟩
        exfalso
        rcases h1 with h1 | ⟨mk, hmk, hc⟩
        · rw [strContains_empty_hay "503" (by decide)] at h1
          simp at h1
        · have hne : mk ≠ "" :=
            (by decide : ∀ mk ∈ _TRANSIENT_GATEWAY_ERROR_MARKERS, mk ≠ "") mk hmk
          rw [strContains_empty_hay mk hne] at hc
          exact absurd hc (by simp)
    · rw [if_neg h0]
      by_cases hn : _NON_TRANSIENT_GATEWAY_ERROR_MARKERS.any
          (fun mk => strContains (pyLowerStr m) mk)
      · rw [if_pos hn]
        simp only [List.any_eq_true] at hn
        obtain ⟨mk, hmk, hc⟩ := hn
        constructor
        · intro hf; exact absurd hf (by simp)
        · rintro ⟨-, hall⟩
          rw [hall mk hmk] at hc
          exact absurd hc (by simp)
      · rw [if_neg hn]
        have hall : ∀ mk ∈ _NON_TRANSIENT_GATEWAY_ERROR_MARKERS,
            strContains (pyLowerStr m) mk = false := by
          intro mk hmk
          by_contra hne
          exact hn (List.any_eq_true.mpr ⟨mk, hmk, by simpa using hne⟩)
        simp only [Bool.or_eq_true, Bool.and_eq_true, List.any_eq_true]
        constructor
        · intro hT
          exact ⟨by tauto, hall⟩
        · rintro ⟨hd, -⟩
          tauto
  · intro hcr hall
    rw [hchar]
    have h0 : ¬ pyLowerStr m = "" := by
      intro h0
      rw [h0, strContains_empty_hay "connection refused" (by decide)] at hcr
      exact absurd hcr (by simp)
    rw [if_neg h0]
    have hn : _NON_TRANSIENT_GATEWAY_ERROR_MARKERS.any
        (fun mk => strContains (pyLowerStr m) mk) = false := by
      simp only [List.any_eq_false]
      intro mk hmk
      simp [hall mk hmk]
    rw [hn]
    simp only [Bool.false_eq_true, if_false]
    have : ∃ mk ∈ _TRANSIENT_GATEWAY_ERROR_MARKERS,
        strContains (pyLowerStr m) mk = true :=
      ⟨"connection refused", by unfold _TRANSIENT_GATEWAY_ERROR_MARKERS; simp, hcr⟩
    simp [List.any_eq_true]
    right
    simpa using this
  · intro hus
    rw [hchar]
    by_cases h0 : pyLowerStr m = ""
    · simp [h0]
    · rw [if_neg h0]
      have hn : _NON_TRANSIENT_GATEWAY_ERROR_MARKERS.any
          (fun mk => strContains (pyLowerStr m) mk) = true :=
        List.any_eq_true.mpr ⟨"unsupported file",
          by unfold _NON_TRANSIENT_GATEWAY_ERROR_MARKERS; simp, hus⟩
      rw [hn]
      simp

/-- Concrete instance of claim C6's amended theorem. -/
theorem transient_classifier_characterization_witness :
    strContains (pyLowerStr "Connection refused") "connection refused" = true ∧
      _is_transient_gateway_error (.gateway "Connection refused") = true := by
  have h := (transient_classifier_characterization "Connection refused").2.1
  exact ⟨by decide, h (by decide) (by decide)⟩

theorem backoffRunFail_timedOut_ge (cfg : BackoffCfg) :
    ∀ (trace : List FailStep) (delay elapsed slept : ℚ) (e total : ℚ) (msg : String),
      backoffRunFail cfg delay elapsed slept trace = .timedOut e total msg →
      cfg.timeout_s ≤ e := by
  intro trace
  induction trace with
  | nil => intro delay elapsed slept e total msg h; simp [backoffRunFail] at h
  | cons step rest ih =>
    intro delay elapsed slept e total msg h
    simp only [backoffRunFail] at h
    by_cases hr : cfg.timeout_s - (elapsed + step.opDur) ≤ 0
    · rw [if_pos hr] at h
      cases h
      linarith
    · rw [if_neg hr] at h
      exact ih _ _ _ _ _ _ h

theorem backoffRunFail_total_sleep_le (cfg : BackoffCfg) :
    ∀ (trace : List FailStep) (delay elapsed slept : ℚ),
      (∀ s ∈ trace, 0 ≤ s.opDur) → slept ≤ elapsed → slept ≤ cfg.timeout_s →
      (∀ e total msg, backoffRunFail cfg delay elapsed slept trace = .timedOut e total msg →
         total ≤ cfg.timeout_s) ∧
      (∀ d e total, backoffRunFail cfg delay elapsed slept trace = .pending d e total →
         total ≤ cfg.timeout_s) := by
  intro trace
  induction trace with
  | nil =>
    intro delay elapsed slept _ _ hst
    constructor
    · intro e total msg h; simp [backoffRunFail] at h
    · intro d e total h
      simp only [backoffRunFail, BackoffOutcome.pending.injEq] at h
      obtain ⟨-, -, rfl⟩ := h
      exact hst
  | cons step rest ih =>
    intro delay elapsed slept hdur hse hst
    have hd0 : 0 ≤ step.opDur := hdur step (by simp)
    have hdrest : ∀ s ∈ rest, 0 ≤ s.opDur := fun s hs => hdur s (by simp [hs])
    by_cases hr : cfg.timeout_s - (elapsed + step.opDur) ≤ 0
    · constructor
      · intro e total msg h
        simp only [backoffRunFail, if_pos hr, BackoffOutcome.timedOut.injEq] at h
        obtain ⟨-, rfl, -⟩ := h
        exact hst
      · intro d e total h
        simp only [backoffRunFail, if_pos hr] at h
        simp at h
    · have hrpos : 0 < cfg.timeout_s - (elapsed + step.opDur) := by linarith
      set r := cfg.timeout_s - (elapsed + step.opDur) with hrdef
      set s := backoffSleep cfg delay r step.factor with hsdef
      have hs0 : 0 ≤ s := by
        rw [hsdef]; unfold backoffSleep; exact le_max_left _ _
      have hsr : s ≤ r := by
        rw [hsdef]; unfold backoffSleep
        exact max_le (le_of_lt hrpos) (min_le_right _ _)
      have hstep : backoffRunFail cfg delay elapsed slept (step :: rest) =
          backoffRunFail cfg (min (delay * 2) cfg.max_delay_s)
            (elapsed + step.opDur + s) (slept + s) rest := by
        simp only [backoffRunFail, if_neg hr]
      rw [hstep]
      exact ih _ _ _ hdrest (by linarith) (by linarith)

/-- Claim C5: for an operation that always raises a transient gateway error,
`run` (1) raises a Timeout only when elapsed time is at least the configured
deadline — never before; (2) raises that Timeout immediately, wrapping the
last underlying error, at the first failure past the deadline; (3) otherwise
sleeps exactly `min(current_delay, remaining)` scaled by the sampled jitter
factor and clamped to `[0, remaining]`, doubling the delay up to
`max_delay_s`; and (4, 5) the total sleep within one `run` call never
exceeds the deadline, whether it ends in Timeout or is still pending. -/
theorem backoff_run_deadline_behavior (cfg : BackoffCfg) (delay0 : ℚ)
    (trace : List FailStep)
    (htimeout : 0 ≤ cfg.timeout_s) (hdur : ∀ s ∈ trace, 0 ≤ s.opDur) :
    (∀ e total msg, backoffRunFail cfg delay0 0 0 trace = .timedOut e total msg →
       cfg.timeout_s ≤ e) ∧
    (∀ (delay elapsed slept : ℚ) (step : FailStep) (rest : List FailStep),
       cfg.timeout_s ≤ elapsed + step.opDur →
       backoffRunFail cfg delay elapsed slept (step :: rest) =
         .timedOut (elapsed + step.opDur) slept (_gateway_timeout_message step.errMsg)) ∧
    (∀ (delay elapsed slept : ℚ) (step : FailStep) (rest : List FailStep),
       cfg.jitter ≠ 0 → elapsed + step.opDur < cfg.timeout_s →
       backoffRunFail cfg delay elapsed slept (step :: rest) =
         backoffRunFail cfg (min (delay * 2) cfg.max_delay_s)
           (elapsed + step.opDur +
             max 0 (min (min delay (cfg.timeout_s - (elapsed + step.opDur)) * step.factor)
               (cfg.timeout_s - (elapsed + step.opDur))))
           (slept +
             max 0 (min (min delay (cfg.timeout_s - (elapsed + step.opDur)) * step.factor)
               (cfg.timeout_s - (elapsed + step.opDur)))) rest) ∧
    (∀ e total msg, backoffRunFail cfg delay0 0 0 trace = .timedOut e total msg →
       total ≤ cfg.timeout_s) ∧
    (∀ d e total, backoffRunFail cfg delay0 0 0 trace = .pending d e total →
       total ≤ cfg.timeout_s) := by
  have hb := backoffRunFail_total_sleep_le cfg trace delay0 0 0 hdur le_rfl htimeout
  refine ⟨?_, ?_, ?_, hb.1, hb.2⟩
  · intro e total msg h
    exact backoffRunFail_timedOut_ge cfg trace delay0 0 0 e total msg h
  · intro delay elapsed slept step rest hle
    simp only [backoffRunFail, if_pos (by linarith : cfg.timeout_s - (elapsed + step.opDur) ≤ 0)]
  · intro delay elapsed slept step rest hj hlt
    have hr : ¬ cfg.timeout_s - (elapsed + step.opDur) ≤ 0 := by linarith
    simp only [backoffRunFail, if_neg hr]
    unfold backoffSleep
    simp only [if_neg hj]

/-- Concrete instance of claim C5's theorem, at the constructor defaults:
a single failing call that took 601 s is past the 600 s deadline and raises
immediately with zero total sleep. -/
theorem backoff_run_deadline_behavior_witness :
    (0 : ℚ) ≤ GATEWAY_BACKOFF_DEFAULT.timeout_s ∧
      backoffRunFail GATEWAY_BACKOFF_DEFAULT (3/4) 0 0 [⟨601, 1, "boom"⟩] =
        .timedOut 601 0 (_gateway_timeout_message "boom") := by
  have h := backoff_run_deadline_behavior GATEWAY_BACKOFF_DEFAULT (3/4) [⟨601, 1, "boom"⟩]
    (by norm_num [GATEWAY_BACKOFF_DEFAULT]) (by intro s hs; simp at hs; subst hs; norm_num)
  refine ⟨by norm_num [GATEWAY_BACKOFF_DEFAULT], ?_⟩
  have h2 := h.2.1 (3/4) 0 0 ⟨601, 1, "boom"⟩ []
    (by norm_num [GATEWAY_BACKOFF_DEFAULT])
  simpa using h2

theorem str_data_append (a b : String) : (a ++ b).data = a.data ++ b.data := rfl

theorem str_append_assoc (a b c : String) : a ++ b ++ c = a ++ (b ++ c) := by
  apply String.ext
  simp [str_data_append, List.append_assoc]

theorem strStarts_refl_append (n t : List Char) : strStarts n (n ++ t) = true := by
  induction n with
  | nil => rfl
  | cons c rest ih => simp [strStarts, ih]

theorem strHas_of_starts {n h : List Char} (hs : strStarts n h = true) : strHas n h = true := by
  cases h with
  | nil => simpa [strHas] using hs
  | cons c rest => simp [strHas, hs]

theorem strHas_of_mid (n u v : List Char) : strHas n (u ++ (n ++ v)) = true := by
  induction u with
  | nil => exact strHas_of_starts (strStarts_refl_append n v)
  | cons c rest ih => simp [strHas, ih]

theorem strContains_of_decomp (msg u n v : String) (h : msg = u ++ (n ++ v)) :
    strContains msg n = true := by
  subst h
  unfold strContains
  rw [str_data_append, str_data_append]
  exact strHas_of_mid n.data u.data v.data

theorem strJoin_split {α : Type} (f : α → String) :
    ∀ (l : List α) (x : α), x ∈ l →
      ∃ u v : String, strJoin (l.map f) = u ++ (f x ++ v) := by
  intro l
  induction l with
  | nil => intro x hx; simp at hx
  | cons a rest ih =>
    intro x hx
    rcases List.mem_cons.mp hx with rfl | hx
    · exact ⟨"", strJoin (rest.map f), by simp [strJoin]⟩
    · obtain ⟨u, v, hu⟩ := ih x hx
      refine ⟨f a ++ u, v, ?_⟩
      simp only [List.map_cons, strJoin, hu, str_append_assoc]

theorem head?_dropWhile_not {p : Char → Bool} :
    ∀ {l : List Char} {c : Char}, (l.dropWhile p).head? = some c → p c = false := by
  intro l
  induction l with
  | nil => intro c h; simp [List.dropWhile] at h
  | cons a rest ih =>
    intro c h
    by_cases hp : p a
    · rw [List.dropWhile_cons_of_pos hp] at h
      exact ih h
    · rw [List.dropWhile_cons_of_neg hp] at h
      simp only [List.head?_cons, Option.some.injEq] at h
      subst h
      simpa using hp

theorem pyRstripSlashes_no_trailing (s : String) :
    (pyRstripSlashes s).data.getLast? ≠ some '/' := by
  unfold pyRstripSlashes
  intro h
  simp only [List.getLast?_reverse] at h
  have := head?_dropWhile_not h
  simp at this

/-- Claim C9: the provisioning message always carries one rendered block per
named template file, in the fixed `TEMPLATE_FILES` order as a contiguous
tail of the message, never omitting one; an absent/empty template renders as
the `# <name>` stub with the TODO marker; and the workspace path is the
configured root (default `~/.openclaw/workspaces`) with trailing slashes
stripped, joined by `/` with the slugified agent name. -/
theorem build_provisioning_message_blocks (templates : String → String)
    (workspaceRoot baseUrl fallback : String) (agent : Agent) :
    (∃ pre : String,
        build_provisioning_message templates workspaceRoot baseUrl fallback agent =
          pre ++ strJoin (TEMPLATE_FILES.map fun n => _render_file_block n (templates n))) ∧
    (∀ name ∈ TEMPLATE_FILES,
        strContains (build_provisioning_message templates workspaceRoot baseUrl fallback agent)
          (_render_file_block name (templates name)) = true) ∧
    (∀ name : String, templates name = "" →
        _render_file_block name (templates name) =
          "\n" ++ name ++ "\n```md\n" ++ ("# " ++ name ++ "\n\nTODO: add content\n") ++ "\n```\n") ∧
    (_workspace_path workspaceRoot fallback agent.name =
        pyRstripSlashes (if workspaceRoot = "" then "~/.openclaw/workspaces" else workspaceRoot)
          ++ "/" ++ _slugify fallback agent.name) ∧
    (∀ s : String, (pyRstripSlashes s).data.getLast? ≠ some '/') ∧
    _workspace_path "" fallback "Ada Lovelace!!" = "~/.openclaw/workspaces/ada-lovelace" := by
  refine ⟨⟨_, rfl⟩, ?_, ?_, rfl, pyRstripSlashes_no_trailing, ?_⟩
  · intro name hname
    obtain ⟨u, v, huv⟩ :=
      strJoin_split (fun n => _render_file_block n (templates n)) TEMPLATE_FILES name hname
    obtain ⟨pre, hpre⟩ :
        ∃ pre : String,
          build_provisioning_message templates workspaceRoot baseUrl fallback agent =
            pre ++ strJoin (TEMPLATE_FILES.map fun n => _render_file_block n (templates n)) :=
      ⟨_, rfl⟩
    refine strContains_of_decomp _ (pre ++ u) _ v ?_
    rw [hpre, huv]
    exact (str_append_assoc pre u _).symm
  · intro name h
    unfold _render_file_block
    rw [h, if_pos rfl]
  · unfold _workspace_path _slugify
    rw [if_pos rfl, if_neg (by decide)]
    decide

/-- Concrete instance of claim C9's theorem. -/
theorem build_provisioning_message_blocks_witness :
    strContains
        (build_provisioning_message (fun _ => "") "" "" "fb" ⟨1, "Ada", none, none, none⟩)
        (_render_file_block "AGENTS.md" "") = true :=
  (build_provisioning_message_blocks (fun _ => "") "" "" "fb"
      ⟨1, "Ada", none, none, none⟩).2.1 "AGENTS.md" (by decide)

theorem pySplitChar_ne_nil (sep : Char) : ∀ l : List Char, pySplitChar sep l ≠ [] := by
  intro l
  cases l with
  | nil => simp [pySplitChar]
  | cons c rest =>
    unfold pySplitChar
    by_cases h : c = sep
    · simp [h]
    · rw [if_neg h]
      match pySplitChar sep rest with
      | [] => simp
      | f :: fs => simp

theorem strStarts_iff_append {n : List Char} :
    ∀ {h : List Char}, strStarts n h = true ↔ ∃ t, h = n ++ t := by
  induction n with
  | nil => intro h; simp [strStarts]
  | cons c rest ih =>
    intro h
    cases h with
    | nil => simp [strStarts]
    | cons a as =>
      simp only [strStarts, Bool.and_eq_true, beq_iff_eq, ih, List.cons_append,
        List.cons.injEq]
      constructor
      · rintro ⟨rfl, t, rfl⟩; exact ⟨t, rfl, rfl⟩
      · rintro ⟨t, rfl, rfl⟩; exact ⟨rfl, t, rfl⟩

theorem agent_session_key_parts_len {sk : List Char}
    (h : strStarts "agent:".data sk = true) : 2 ≤ (pySplitChar ':' sk).length := by
  obtain ⟨t, rfl⟩ := strStarts_iff_append.mp h
  rw [show ("agent:".data : List Char) ++ t = "agent".data ++ ':' :: t from rfl]
  rw [pySplitChar_append t (by decide)]
  have := pySplitChar_ne_nil ':' t
  simp only [List.length_cons]
  cases hsp : pySplitChar ':' t with
  | nil => exact absurd hsp this
  | cons f fs => simp

/-- Claim C8, counterexample to the claim as stated: the session key
`"agent:"` starts with the reserved prefix and splits into two
colon-delimited segments, yet the second segment is empty, so the code
returns the name slug ("bob"), not the second segment. -/
theorem gateway_agent_id_empty_segment_counterexample :
    strStarts "agent:".data ("agent:".data) = true ∧
    SESSION_KEY_PARTS_MIN ≤ (pySplitChar ':' "agent:".data).length ∧
    (pySplitChar ':' "agent:".data).getD 1 [] = [] ∧
    _gateway_agent_id "fallbackid" ⟨1, "Bob", none, some "agent:", none⟩ = "bob" ∧
    ("bob" : String) ≠ ⟨(pySplitChar ':' "agent:".data).getD 1 []⟩ := by
  decide

/-- Claim C8 (amended): if the session key starts with `"agent:"` and its
second colon-delimited segment is non-empty, that segment is returned
(the two-segment minimum holds automatically); otherwise — including an
empty second segment or no session key — the result is the deterministic
display-name slug (lowercased, non-alphanumeric runs collapsed to single
hyphens, trimmed, with the random fallback when empty).
`"agent:abc123:main"` yields `"abc123"`; name `"Ada Lovelace!!"` with no
session key yields `"ada-lovelace"`. -/
theorem gateway_agent_id_characterization (fallback : String) (agent : Agent) :
    (∀ sk : String, agent.openclaw_session_id = some sk →
        strStarts "agent:".data sk.data = true →
        (pySplitChar ':' sk.data).getD 1 [] ≠ [] →
        _gateway_agent_id fallback agent = ⟨(pySplitChar ':' sk.data).getD 1 []⟩) ∧
    (∀ sk : String, agent.openclaw_session_id = some sk →
        (strStarts "agent:".data sk.data = false ∨ (pySplitChar ':' sk.data).getD 1 [] = []) →
        _gateway_agent_id fallback agent = _slugify fallback agent.name) ∧
    (agent.openclaw_session_id = none →
        _gateway_agent_id fallback agent = _slugify fallback agent.name) ∧
    (_slugify fallback "Ada Lovelace!!" = "ada-lovelace") ∧
    (∀ a2 : Agent, a2.openclaw_session_id = some "agent:abc123:main" →
        _gateway_agent_id fallback a2 = "abc123") := by
  refine ⟨?_, ?_, ?_, ?_, ?_⟩
  · intro sk hsk hstart hne
    unfold _gateway_agent_id
    rw [hsk]
    simp only [Option.getD_some]
    rw [if_pos ⟨hstart, agent_session_key_parts_len hstart, hne⟩]
  · intro sk hsk hor
    unfold _gateway_agent_id
    rw [hsk]
    simp only [Option.getD_some]
    rw [if_neg ?_]
    rintro ⟨h1, -, h3⟩
    rcases hor with h | h
    · rw [h1] at h; exact absurd h (by simp)
    · exact h3 h
  · intro hsk
    unfold _gateway_agent_id
    rw [hsk]
    simp only [Option.getD_none]
    rw [if_neg ?_]
    rintro ⟨h1, -, -⟩
    exact absurd h1 (by decide)
  · unfold _slugify
    rw [if_neg (by decide)]
    decide
  · intro a2 h2
    unfold _gateway_agent_id
    rw [h2]
    simp only [Option.getD_some]
    rw [if_pos (by decide)]
    decide

/-- Concrete instance of claim C8's amended theorem. -/
theorem gateway_agent_id_characterization_witness :
    _gateway_agent_id "fb" ⟨1, "Ada Lovelace!!", none, none, none⟩ = "ada-lovelace" := by
  have h := gateway_agent_id_characterization "fb" ⟨1, "Ada Lovelace!!", none, none, none⟩
  rw [h.2.2.1 rfl]
  exact h.2.2.2.1

theorem latestFold_mem (b : Nat) :
    ∀ (mems : List BoardMemory) (acc : Option BoardMemory) (m : BoardMemory),
      mems.foldl
        (fun acc m =>
          if isPauseCommandFor m b then
            match acc with
            | none => some m
            | some p => if p.created_at < m.created_at then some m else some p
          else acc) acc = some m →
      acc = some m ∨ (m ∈ mems ∧ isPauseCommandFor m b = true) := by
  intro mems
  induction mems with
  | nil => intro acc m h; exact Or.inl h
  | cons x rest ih =>
    intro acc m h
    rw [List.foldl_cons] at h
    rcases ih _ m h with hacc | ⟨hm, hq⟩
    · by_cases hqx : isPauseCommandFor x b
      · rw [if_pos hqx] at hacc
        cases acc with
        | none =>
          simp only [Option.some.injEq] at hacc
          exact Or.inr ⟨by simp [hacc.symm], hacc ▸ hqx⟩
        | some p =>
          dsimp only at hacc
          by_cases hlt : p.created_at < x.created_at
          · rw [if_pos hlt] at hacc
            simp only [Option.some.injEq] at hacc
            exact Or.inr ⟨by simp [hacc.symm], hacc ▸ hqx⟩
          · rw [if_neg hlt] at hacc
            exact Or.inl hacc
      · rw [if_neg hqx] at hacc
        exact Or.inl hacc
    · exact Or.inr ⟨by simp [hm], hq⟩

theorem latestFold_mono (b : Nat) :
    ∀ (mems : List BoardMemory) (acc : Option BoardMemory) (p : BoardMemory),
      acc = some p →
      ∃ m, mems.foldl
        (fun acc m =>
          if isPauseCommandFor m b then
            match acc with
            | none => some m
            | some p => if p.created_at < m.created_at then some m else some p
          else acc) acc = some m ∧ p.created_at ≤ m.created_at := by
  intro mems
  induction mems with
  | nil => intro acc p h; exact ⟨p, h, le_rfl⟩
  | cons x rest ih =>
    intro acc p h
    subst h
    rw [List.foldl_cons]
    by_cases hqx : isPauseCommandFor x b
    · rw [if_pos hqx]
      dsimp only
      by_cases hlt : p.created_at < x.created_at
      · rw [if_pos hlt]
        obtain ⟨m, hm, hle⟩ := ih (some x) x rfl
        exact ⟨m, hm, le_trans (le_of_lt hlt) hle⟩
      · rw [if_neg hlt]
        exact ih (some p) p rfl
    · rw [if_neg hqx]
      exact ih (some p) p rfl

theorem latestFold_reaches (b : Nat) :
    ∀ (mems : List BoardMemory) (acc : Option BoardMemory) (x : BoardMemory),
      x ∈ mems → isPauseCommandFor x b = true →
      ∃ m, mems.foldl
        (fun acc m =>
          if isPauseCommandFor m b then
            match acc with
            | none => some m
            | some p => if p.created_at < m.created_at then some m else some p
          else acc) acc = some m ∧ x.created_at ≤ m.created_at := by
  intro mems
  induction mems with
  | nil => intro acc x hx; simp at hx
  | cons y rest ih =>
    intro acc x hx hq
    rw [List.foldl_cons]
    rcases List.mem_cons.mp hx with rfl | hx
    · rw [if_pos hq]
      cases acc with
      | none => exact latestFold_mono b rest (some x) x rfl
      | some p =>
        dsimp only
        by_cases hlt : p.created_at < x.created_at
        · rw [if_pos hlt]
          exact latestFold_mono b rest (some x) x rfl
        · rw [if_neg hlt]
          obtain ⟨m, hm, hle⟩ := latestFold_mono b rest (some p) p rfl
          exact ⟨m, hm, le_trans (le_of_not_lt hlt) hle⟩
    · exact ih _ x hx hq

/-- Claim C7: a board's pause state is decided solely by the most recent
recorded `/pause`/`/resume` chat command (trimmed, case-insensitive):
`/pause` then a later `/resume` leaves the board unpaused, `/resume` then a
later `/pause` leaves it paused, and non-command rows never change the
outcome; a board is in the paused set iff it is in scope and its latest
command is `/pause`; and an agent on a paused board is skipped silently —
`agents_skipped` is incremented with no error entry added. -/
theorem pause_state_latest_command_and_silent_skip :
    (∀ (mems : List BoardMemory) (b : Nat) (mp mr : BoardMemory),
        mp ∈ mems → mr ∈ mems →
        isPauseCommandFor mp b = true → isPauseCommandFor mr b = true →
        normCmd mr.content = "/resume" →
        (∀ m ∈ mems, isPauseCommandFor m b = true → m = mp ∨ m = mr) →
        mp.created_at < mr.created_at →
        boardPaused mems b = false) ∧
    (∀ (mems : List BoardMemory) (b : Nat) (mr mp : BoardMemory),
        mr ∈ mems → mp ∈ mems →
        isPauseCommandFor mr b = true → isPauseCommandFor mp b = true →
        normCmd mp.content = "/pause" →
        (∀ m ∈ mems, isPauseCommandFor m b = true → m = mr ∨ m = mp) →
        mr.created_at < mp.created_at →
        boardPaused mems b = true) ∧
    (∀ (pre post : List BoardMemory) (m : BoardMemory) (b : Nat),
        isPauseCommandFor m b = false →
        boardPaused (pre ++ m :: post) b = boardPaused (pre ++ post) b) ∧
    (∀ (mems : List BoardMemory) (boardIds : List Nat) (b : Nat),
        b ∈ _paused_board_ids mems boardIds ↔ b ∈ boardIds ∧ boardPaused mems b = true) ∧
    (∀ (verify : String → String → Bool) (rots : Nat → String × String)
        (rotate_tokens : Bool) (inScope paused : List Nat) (st : SyncLoopState)
        (agent : Agent) (env : AgentEnv) (b : Nat),
        agent.board_id = some b → b ∈ inScope → b ∈ paused →
        syncAgentStep verify rots rotate_tokens inScope paused st agent env =
          ({ st with
              res := { st.res with agents_skipped := st.res.agents_skipped + 1 },
              done := st.done ++ [agent] }, true)) := by
  refine ⟨?_, ?_, ?_, ?_, ?_⟩
  · intro mems b mp mr hmp hmr hqp hqr hres honly hlt
    unfold boardPaused latestChatCommand
    obtain ⟨m, hm, hle⟩ := latestFold_reaches b mems none mr hmr hqr
    rw [hm]
    rcases latestFold_mem b mems none m hm with hnone | ⟨hmem, hq⟩
    · exact absurd hnone (by simp)
    · rcases honly m hmem hq with rfl | rfl
      · omega
      · simp [hres]
  · intro mems b mr mp hmr hmp hqr hqp hpau honly hlt
    unfold boardPaused latestChatCommand
    obtain ⟨m, hm, hle⟩ := latestFold_reaches b mems none mp hmp hqp
    rw [hm]
    rcases latestFold_mem b mems none m hm with hnone | ⟨hmem, hq⟩
    · exact absurd hnone (by simp)
    · rcases honly m hmem hq with rfl | rfl
      · omega
      · simp [hpau]
  · intro pre post m b hnq
    unfold boardPaused latestChatCommand
    rw [List.foldl_append, List.foldl_append, List.foldl_cons, if_neg (by simp [hnq])]
  · intro mems boardIds b
    unfold _paused_board_ids
    simp [List.mem_filter]
  · intro verify rots rotate_tokens inScope paused st agent env b hb hin hp
    unfold syncAgentStep
    rw [hb]
    simp only [if_pos hin, if_pos hp]

/-- Concrete instance of claim C7's theorem. -/
theorem pause_state_latest_command_and_silent_skip_witness :
    boardPaused [⟨5, "/pause", true, 1⟩, ⟨5, " /Resume ", true, 2⟩] 5 = false ∧
      boardPaused [⟨5, "/resume", true, 1⟩, ⟨5, "/PAUSE", true, 2⟩] 5 = true := by
  have h := pause_state_latest_command_and_silent_skip
  constructor
  · exact h.1 [⟨5, "/pause", true, 1⟩, ⟨5, " /Resume ", true, 2⟩] 5
      ⟨5, "/pause", true, 1⟩ ⟨5, " /Resume ", true, 2⟩ (by simp) (by simp)
      (by decide) (by decide) (by decide)
      (by decide) (by decide)
  · exact h.2.1 [⟨5, "/resume", true, 1⟩, ⟨5, "/PAUSE", true, 2⟩] 5
      ⟨5, "/resume", true, 1⟩ ⟨5, "/PAUSE", true, 2⟩ (by simp) (by simp)
      (by decide) (by decide) (by decide)
      (by decide) (by decide)

theorem syncAgentStep_happy (verify : String → String → Bool)
    (rots : Nat → String × String) (rotate_tokens : Bool)
    (inScope paused : List Nat) (st : SyncLoopState) (agent : Agent)
    (t : String) (b : Nat)
    (hb : agent.board_id = some b) (hin : b ∈ inScope) (hp : b ∉ paused)
    (ht : t ≠ "") (hh : agent.agent_token_hash = none) :
    syncAgentStep verify rots rotate_tokens inScope paused st agent ⟨.ok (some t), .ok⟩ =
      ({ st with
          res := { st.res with agents_updated := st.res.agents_updated + 1 },
          done := st.done ++ [agent] }, true) := by
  unfold syncAgentStep syncAgentTokenAndProvision
  rw [hb]
  simp [if_pos hin, if_neg hp, hh, ht]

theorem syncAgentStep_adapter_error (verify : String → String → Bool)
    (rots : Nat → String × String) (rotate_tokens : Bool)
    (inScope paused : List Nat) (st : SyncLoopState) (agent : Agent)
    (t m : String) (b : Nat)
    (hb : agent.board_id = some b) (hin : b ∈ inScope) (hp : b ∉ paused)
    (ht : t ≠ "") (hh : agent.agent_token_hash = none) :
    syncAgentStep verify rots rotate_tokens inScope paused st agent
        ⟨.ok (some t), .adapterErr m⟩ =
      ({ st with
          res := { st.res with
            agents_skipped := st.res.agents_skipped + 1,
            errors := st.res.errors ++
              [⟨some agent.id, some agent.name, some b, "Failed to sync templates: " ++ m⟩] },
          done := st.done ++ [agent] }, true) := by
  unfold syncAgentStep syncAgentTokenAndProvision
  rw [hb]
  simp [if_pos hin, if_neg hp, hh, ht]

theorem syncAgentStep_fetch_timeout (verify : String → String → Bool)
    (rots : Nat → String × String) (rotate_tokens : Bool)
    (inScope paused : List Nat) (st : SyncLoopState) (agent : Agent)
    (m : String) (pv : ProvisionOutcome) (b : Nat)
    (hb : agent.board_id = some b) (hin : b ∈ inScope) (hp : b ∉ paused) :
    syncAgentStep verify rots rotate_tokens inScope paused st agent ⟨.timeoutErr m, pv⟩ =
      ({ st with
          res := { st.res with
            errors := st.res.errors ++ [⟨some agent.id, some agent.name, some b, m⟩] },
          done := st.done ++ [agent] }, false) := by
  unfold syncAgentStep
  rw [hb]
  simp [if_pos hin, if_neg hp]

theorem syncAgentStep_provision_timeout (verify : String → String → Bool)
    (rots : Nat → String × String) (rotate_tokens : Bool)
    (inScope paused : List Nat) (st : SyncLoopState) (agent : Agent)
    (t m : String) (b : Nat)
    (hb : agent.board_id = some b) (hin : b ∈ inScope) (hp : b ∉ paused)
    (ht : t ≠ "") (hh : agent.agent_token_hash = none) :
    syncAgentStep verify rots rotate_tokens inScope paused st agent
        ⟨.ok (some t), .timeoutErr m⟩ =
      ({ st with
          res := { st.res with
            agents_skipped := st.res.agents_skipped + 1,
            errors := st.res.errors ++ [⟨some agent.id, some agent.name, some b, m⟩] },
          done := st.done ++ [agent] }, false) := by
  unfold syncAgentStep syncAgentTokenAndProvision
  rw [hb]
  simp [if_pos hin, if_neg hp, hh, ht]

/-- Claim C1: in a batch of three agents where agent 2's provisioning raises
a fatal (non-transient) adapter error, the error is recorded as exactly one
per-agent error entry and counted as skipped, the other two agents are still
reconciled (`agents_updated = 2`, `agents_skipped = 1`), and the main agent
is still found and provisioned, so `main_updated = true`. -/
theorem sync_partial_failure_isolation
    (verify : String → String → Bool) (rots : Nat → String × String)
    (mems : List BoardMemory) (boards : List Nat)
    (a1 a2 a3 ma : Agent) (b1 b2 b3 : Nat) (t1 t2 t3 tm g emsg : String)
    (hb1 : a1.board_id = some b1) (hin1 : b1 ∈ boards)
    (hp1 : b1 ∉ _paused_board_ids mems boards)
    (hb2 : a2.board_id = some b2) (hin2 : b2 ∈ boards)
    (hp2 : b2 ∉ _paused_board_ids mems boards)
    (hb3 : a3.board_id = some b3) (hin3 : b3 ∈ boards)
    (hp3 : b3 ∉ _paused_board_ids mems boards)
    (ht1 : t1 ≠ "") (ht2 : t2 ≠ "") (ht3 : t3 ≠ "") (htm : tm ≠ "")
    (hh1 : a1.agent_token_hash = none) (hh2 : a2.agent_token_hash = none)
    (hh3 : a3.agent_token_hash = none) (hhm : ma.agent_token_hash = none) :
    sync_gateway_templates verify rots
      { url_present := true, probe := none, boards := boards, requested_board := none,
        memories := mems,
        agents := [(a1, ⟨.ok (some t1), .ok⟩), (a2, ⟨.ok (some t2), .adapterErr emsg⟩),
                   (a3, ⟨.ok (some t3), .ok⟩)],
        include_main := true, rotate_tokens := false,
        mainAgent := some (ma, ⟨.resolved g, .ok (some tm), .ok⟩) } =
      { res := { agents_updated := 2, agents_skipped := 1, main_updated := true,
                 errors := [⟨some a2.id, some a2.name, some b2,
                   "Failed to sync templates: " ++ emsg⟩] },
        agentsOut := [a1, a2, a3], mainOut := some ma } := by
  unfold sync_gateway_templates
  simp only [Bool.not_true, Bool.false_eq_true, if_false, syncAgentsLoop]
  rw [syncAgentStep_happy verify rots false boards _ _ a1 t1 b1 hb1 hin1 hp1 ht1 hh1]
  simp only []
  rw [syncAgentStep_adapter_error verify rots false boards _ _ a2 t2 emsg b2 hb2 hin2 hp2 ht2 hh2]
  simp only []
  rw [syncAgentStep_happy verify rots false boards _ _ a3 t3 b3 hb3 hin3 hp3 ht3 hh3]
  simp only []
  unfold syncMainPhase
  simp [hhm, htm]

/-- Concrete instance of claim C1's theorem. -/
theorem sync_partial_failure_isolation_witness :
    sync_gateway_templates (fun _ _ => true) (fun _ => ("raw", "hash"))
      { url_present := true, probe := none, boards := [10], requested_board := none,
        memories := [],
        agents := [(⟨1, "a1", some 10, none, none⟩, ⟨.ok (some "tok"), .ok⟩),
                   (⟨2, "a2", some 10, none, none⟩, ⟨.ok (some "tok"), .adapterErr "boom"⟩),
                   (⟨3, "a3", some 10, none, none⟩, ⟨.ok (some "tok"), .ok⟩)],
        include_main := true, rotate_tokens := false,
        mainAgent := some (⟨9, "main", none, some "agent:main:main", none⟩,
          ⟨.resolved "m", .ok (some "tok"), .ok⟩) } =
      { res := { agents_updated := 2, agents_skipped := 1, main_updated := true,
                 errors := [⟨some 2, some "a2", some 10, "Failed to sync templates: boom"⟩] },
        agentsOut := [⟨1, "a1", some 10, none, none⟩, ⟨2, "a2", some 10, none, none⟩,
                      ⟨3, "a3", some 10, none, none⟩],
        mainOut := some ⟨9, "main", none, some "agent:main:main", none⟩ } :=
  sync_partial_failure_isolation (fun _ _ => true) (fun _ => ("raw", "hash"))
    [] [10] ⟨1, "a1", some 10, none, none⟩ ⟨2, "a2", some 10, none, none⟩
    ⟨3, "a3", some 10, none, none⟩ ⟨9, "main", none, some "agent:main:main", none⟩
    10 10 10 "tok" "tok" "tok" "tok" "m" "boom"
    rfl (by decide) (by decide) rfl (by decide) (by decide) rfl (by decide) (by decide)
    (by decide) (by decide) (by decide) (by decide) rfl rfl rfl rfl

theorem syncAgentTokenAndProvision_preserves_main_updated
    (verify : String → String → Bool) (rots : Nat → String × String)
    (rotate_tokens : Bool) (st : SyncLoopState) (agent : Agent) (b : Nat)
    (env : AgentEnv) (tokOpt : Option String) :
    ((syncAgentTokenAndProvision verify rots rotate_tokens st agent b env tokOpt).1).res.main_updated
      = st.res.main_updated := by
  unfold syncAgentTokenAndProvision
  by_cases h1 : ((tokOpt.getD "" == "") && !rotate_tokens) = true
  · simp only [if_pos h1]
  · simp only [if_neg h1]
    cases env.provision <;> rfl

theorem syncAgentStep_preserves_main_updated (verify : String → String → Bool)
    (rots : Nat → String × String) (rotate_tokens : Bool)
    (inScope paused : List Nat) (st : SyncLoopState) (agent : Agent) (env : AgentEnv) :
    ((syncAgentStep verify rots rotate_tokens inScope paused st agent env).1).res.main_updated
      = st.res.main_updated := by
  unfold syncAgentStep
  split
  · rfl
  · split
    · rfl
    · split
      · rfl
      · exact syncAgentTokenAndProvision_preserves_main_updated verify rots rotate_tokens
          st agent _ env _

theorem syncAgentsLoop_preserves_main_updated (verify : String → String → Bool)
    (rots : Nat → String × String) (rotate_tokens : Bool) (inScope paused : List Nat) :
    ∀ (l : List (Agent × AgentEnv)) (st : SyncLoopState),
      ((syncAgentsLoop verify rots rotate_tokens inScope paused st l).1).res.main_updated
        = st.res.main_updated := by
  intro l
  induction l with
  | nil => intro st; rfl
  | cons ae rest ih =>
    intro st
    obtain ⟨a, e⟩ := ae
    simp only [syncAgentsLoop]
    rcases hstep : syncAgentStep verify rots rotate_tokens inScope paused st a e with ⟨st', c⟩
    have hm : st'.res.main_updated = st.res.main_updated := by
      have := syncAgentStep_preserves_main_updated verify rots rotate_tokens inScope paused st a e
      rw [hstep] at this
      exact this
    cases c with
    | true => simpa [hm] using ih st'
    | false => simpa using hm

theorem syncAgentsLoop_append (verify : String → String → Bool)
    (rots : Nat → String × String) (rotate_tokens : Bool) (inScope paused : List Nat) :
    ∀ (pre l2 : List (Agent × AgentEnv)) (st st1 : SyncLoopState),
      syncAgentsLoop verify rots rotate_tokens inScope paused st pre = (st1, true) →
      syncAgentsLoop verify rots rotate_tokens inScope paused st (pre ++ l2) =
        syncAgentsLoop verify rots rotate_tokens inScope paused st1 l2 := by
  intro pre
  induction pre with
  | nil =>
    intro l2 st st1 h
    simp only [syncAgentsLoop, Prod.mk.injEq] at h
    rw [List.nil_append, h.1]
  | cons ae rest ih =>
    intro l2 st st1 h
    obtain ⟨a, e⟩ := ae
    simp only [syncAgentsLoop] at h ⊢
    rcases hstep : syncAgentStep verify rots rotate_tokens inScope paused st a e with ⟨st', c⟩
    rw [hstep] at h
    cases c with
    | true =>
      simp only at h ⊢
      exact ih l2 st' st1 h
    | false => simp at h

/-- Claim C2: when the retry deadline has expired during an agent's token
retrieval (first part) or provisioning (second part), the sync returns early
— never raising to the caller — with the Timeout error entry appended to the
accumulated result; the agents after the failing one are left untouched, the
main-agent phase never runs (`main_updated = false`) and the main-agent row
is not modified.  The fetch-timeout path does not count the agent as
skipped; the provisioning-timeout path does. -/
theorem sync_timeout_aborts_whole_sync
    (verify : String → String → Bool) (rots : Nat → String × String)
    (mems : List BoardMemory) (boards : List Nat) (include_main : Bool)
    (rotate_tokens : Bool) (mainA : Option (Agent × MainEnv)) :
    (∀ (pre post : List (Agent × AgentEnv)) (a : Agent) (m : String)
        (pv : ProvisionOutcome) (b : Nat) (st1 : SyncLoopState),
        syncAgentsLoop verify rots rotate_tokens boards
            (_paused_board_ids mems boards)
            { res := { agents_updated := 0, agents_skipped := 0, main_updated := false,
                       errors := [] }, rotIndex := 0, done := [] } pre = (st1, true) →
        a.board_id = some b → b ∈ boards → b ∉ _paused_board_ids mems boards →
        sync_gateway_templates verify rots
          { url_present := true, probe := none, boards := boards, requested_board := none,
            memories := mems, agents := pre ++ (a, ⟨.timeoutErr m, pv⟩) :: post,
            include_main := include_main, rotate_tokens := rotate_tokens,
            mainAgent := mainA } =
          { res := { agents_updated := st1.res.agents_updated,
                     agents_skipped := st1.res.agents_skipped,
                     main_updated := false,
                     errors := st1.res.errors ++ [⟨some a.id, some a.name, some b, m⟩] },
            agentsOut := (st1.done ++ [a]) ++ post.map Prod.fst,
            mainOut := mainA.map Prod.fst }) ∧
    (∀ (pre post : List (Agent × AgentEnv)) (a : Agent) (t m : String) (b : Nat)
        (st1 : SyncLoopState),
        syncAgentsLoop verify rots rotate_tokens boards
            (_paused_board_ids mems boards)
            { res := { agents_updated := 0, agents_skipped := 0, main_updated := false,
                       errors := [] }, rotIndex := 0, done := [] } pre = (st1, true) →
        a.board_id = some b → b ∈ boards → b ∉ _paused_board_ids mems boards →
        t ≠ "" → a.agent_token_hash = none →
        sync_gateway_templates verify rots
          { url_present := true, probe := none, boards := boards, requested_board := none,
            memories := mems, agents := pre ++ (a, ⟨.ok (some t), .timeoutErr m⟩) :: post,
            include_main := include_main, rotate_tokens := rotate_tokens,
            mainAgent := mainA } =
          { res := { agents_updated := st1.res.agents_updated,
                     agents_skipped := st1.res.agents_skipped + 1,
                     main_updated := false,
                     errors := st1.res.errors ++ [⟨some a.id, some a.name, some b, m⟩] },
            agentsOut := (st1.done ++ [a]) ++ post.map Prod.fst,
            mainOut := mainA.map Prod.fst }) := by
  have hmain0 : ∀ pre st1,
      syncAgentsLoop verify rots rotate_tokens boards (_paused_board_ids mems boards)
        { res := { agents_updated := 0, agents_skipped := 0, main_updated := false,
                   errors := [] }, rotIndex := 0, done := [] } pre = (st1, true) →
      st1.res.main_updated = false := by
    intro pre st1 h
    have := syncAgentsLoop_preserves_main_updated verify rots rotate_tokens boards
      (_paused_board_ids mems boards) pre
      { res := { agents_updated := 0, agents_skipped := 0, main_updated := false,
                 errors := [] }, rotIndex := 0, done := [] }
    rw [h] at this
    exact this
  constructor
  · intro pre post a m pv b st1 hpre hb hin hp
    unfold sync_gateway_templates
    simp only [Bool.not_true, Bool.false_eq_true, if_false]
    rw [syncAgentsLoop_append verify rots rotate_tokens boards _ pre _ _ st1 hpre]
    simp only [syncAgentsLoop]
    rw [syncAgentStep_fetch_timeout verify rots rotate_tokens boards _ st1 a m pv b hb hin hp]
    simp only []
    have hm := hmain0 pre st1 hpre
    simp [hm]
  · intro pre post a t m b st1 hpre hb hin hp ht hh
    unfold sync_gateway_templates
    simp only [Bool.not_true, Bool.false_eq_true, if_false]
    rw [syncAgentsLoop_append verify rots rotate_tokens boards _ pre _ _ st1 hpre]
    simp only [syncAgentsLoop]
    rw [syncAgentStep_provision_timeout verify rots rotate_tokens boards _ st1 a t m b hb hin hp ht hh]
    simp only []
    have hm := hmain0 pre st1 hpre
    simp [hm]

/-- Concrete instance of claim C2's theorem. -/
theorem sync_timeout_aborts_whole_sync_witness :
    sync_gateway_templates (fun _ _ => true) (fun _ => ("raw", "hash"))
      { url_present := true, probe := none, boards := [10], requested_board := none,
        memories := [],
        agents := [(⟨2, "a2", some 10, none, none⟩, ⟨.timeoutErr "TO", .ok⟩),
                   (⟨3, "a3", some 10, none, none⟩, ⟨.ok (some "tok"), .ok⟩)],
        include_main := true, rotate_tokens := false, mainAgent := none } =
      { res := { agents_updated := 0, agents_skipped := 0, main_updated := false,
                 errors := [⟨some 2, some "a2", some 10, "TO"⟩] },
        agentsOut := [⟨2, "a2", some 10, none, none⟩, ⟨3, "a3", some 10, none, none⟩],
        mainOut := none } := by
  have h := (sync_timeout_aborts_whole_sync (fun _ _ => true) (fun _ => ("raw", "hash"))
      [] [10] true false none).1
    [] [(⟨3, "a3", some 10, none, none⟩, ⟨.ok (some "tok"), .ok⟩)]
    ⟨2, "a2", some 10, none, none⟩ "TO" .ok 10
    ⟨⟨0, 0, false, []⟩, 0, []⟩ rfl rfl (by decide) (by decide)
  simpa using h

theorem syncAgentTokenAndProvision_no_rotation_done
    (verify : String → String → Bool) (rots : Nat → String × String)
    (st : SyncLoopState) (agent : Agent) (b : Nat) (env : AgentEnv)
    (tokOpt : Option String) :
    ((syncAgentTokenAndProvision verify rots false st agent b env tokOpt).1).done
      = st.done ++ [agent] := by
  unfold syncAgentTokenAndProvision
  simp only [Bool.not_false, Bool.and_true]
  by_cases h1 : (tokOpt.getD "" == "") = true
  · simp [h1]
  · by_cases h2 : ((!(agent.agent_token_hash.getD "" == "")) &&
        !(verify (tokOpt.getD "") (agent.agent_token_hash.getD ""))) = true
    · cases env.provision <;> simp [h1, h2]
    · cases env.provision <;> simp [h1, h2]

theorem syncAgentStep_no_rotation_done (verify : String → String → Bool)
    (rots : Nat → String × String) (inScope paused : List Nat)
    (st : SyncLoopState) (agent : Agent) (env : AgentEnv) :
    ((syncAgentStep verify rots false inScope paused st agent env).1).done
      = st.done ++ [agent] := by
  unfold syncAgentStep
  split
  · rfl
  · split
    · rfl
    · split
      · rfl
      · exact syncAgentTokenAndProvision_no_rotation_done verify rots st agent _ env _

theorem syncAgentsLoop_no_rotation_done (verify : String → String → Bool)
    (rots : Nat → String × String) (inScope paused : List Nat) :
    ∀ (l : List (Agent × AgentEnv)) (st : SyncLoopState),
      ((syncAgentsLoop verify rots false inScope paused st l).1).done
        = st.done ++ l.map Prod.fst := by
  intro l
  induction l with
  | nil => intro st; simp [syncAgentsLoop]
  | cons ae rest ih =>
    intro st
    obtain ⟨a, e⟩ := ae
    simp only [syncAgentsLoop]
    rcases hstep : syncAgentStep verify rots false inScope paused st a e with ⟨st', c⟩
    have hd : st'.done = st.done ++ [a] := by
      have := syncAgentStep_no_rotation_done verify rots inScope paused st a e
      rw [hstep] at this
      exact this
    cases c with
    | true =>
      simp only []
      rw [ih st', hd]
      simp
    | false =>
      simp only []
      rw [hd]
      simp

theorem syncMainPhase_no_rotation_mainOut (verify : String → String → Bool)
    (rots : Nat → String × String) (include_main : Bool) (st : SyncLoopState)
    (mainAgent : Option (Agent × MainEnv)) :
    (syncMainPhase verify rots false include_main st mainAgent).2.1
      = mainAgent.map Prod.fst := by
  unfold syncMainPhase
  cases include_main with
  | false => simp
  | true =>
    simp only [Bool.not_true, Bool.false_eq_true, if_false]
    cases mainAgent with
    | none => rfl
    | some p =>
      obtain ⟨ma, mres, mfetch, mprov⟩ := p
      cases mres with
      | timeoutErr m => rfl
      | unresolved => rfl
      | resolved g =>
        cases mfetch with
        | timeoutErr m => rfl
        | ok tokOpt =>
          simp only [Bool.not_false, Bool.and_true]
          by_cases h1 : (tokOpt.getD "" == "") = true
          · simp [h1]
          · by_cases h2 : ((!(ma.agent_token_hash.getD "" == "")) &&
                !(verify (tokOpt.getD "") (ma.agent_token_hash.getD ""))) = true
            · cases mprov <;> simp [h1, h2]
            · cases mprov <;> simp [h1, h2]

/-- Claim C10: a run with `rotate_tokens = false` never modifies any agent
row — in particular no `agent_token_hash` — neither for board agents nor for
the main agent; a missing gateway-side token leads to skip-and-report, and a
token failing verification yields only a warning error entry while the run
still provisions and counts the agent as updated, the stored hash left
unchanged.  Only the `rotate_tokens = true` guards in the code write a new
hash. -/
theorem sync_no_rotation_frame (verify : String → String → Bool)
    (rots : Nat → String × String) (inp : SyncInput)
    (hrot : inp.rotate_tokens = false) :
    ((sync_gateway_templates verify rots inp).agentsOut = inp.agents.map Prod.fst ∧
     (sync_gateway_templates verify rots inp).mainOut = inp.mainAgent.map Prod.fst) ∧
    (∀ (st : SyncLoopState) (agent : Agent) (b : Nat) (env : AgentEnv),
        syncAgentTokenAndProvision verify rots false st agent b env none =
          ({ st with
              res := { st.res with
                agents_skipped := st.res.agents_skipped + 1,
                errors := st.res.errors ++
                  [⟨some agent.id, some agent.name, some b,
                    "Skipping agent: unable to read AUTH_TOKEN from TOOLS.md (run with rotate_tokens=true to re-key)."⟩] },
              done := st.done ++ [agent] }, true)) ∧
    (∀ (st : SyncLoopState) (agent : Agent) (b : Nat) (env : AgentEnv) (t h : String),
        env.provision = ProvisionOutcome.ok → t ≠ "" →
        agent.agent_token_hash = some h → h ≠ "" → verify t h = false →
        syncAgentTokenAndProvision verify rots false st agent b env (some t) =
          ({ st with
              res := { st.res with
                agents_updated := st.res.agents_updated + 1,
                errors := st.res.errors ++
                  [⟨some agent.id, some agent.name, some b,
                    "Warning: AUTH_TOKEN in TOOLS.md does not match backend token hash (agent auth may be broken)."⟩] },
              done := st.done ++ [agent] }, true)) := by
  refine ⟨?_, ?_, ?_⟩
  · obtain ⟨url, probe, boards, reqb, mems, agents, im, rt, mainA⟩ := inp
    simp only at hrot
    subst hrot
    unfold sync_gateway_templates
    cases url with
    | false => simp
    | true =>
      simp only [Bool.not_true, Bool.false_eq_true, if_false]
      cases probe with
      | some m => simp
      | none =>
        cases reqb with
        | none =>
          rcases hloop : syncAgentsLoop verify rots false boards
              (_paused_board_ids mems boards)
              { res := { agents_updated := 0, agents_skipped := 0, main_updated := false,
                         errors := [] }, rotIndex := 0, done := [] } agents with ⟨st, ok⟩
          have hd : st.done = agents.map Prod.fst := by
            have h2 := syncAgentsLoop_no_rotation_done verify rots boards
              (_paused_board_ids mems boards) agents
              { res := { agents_updated := 0, agents_skipped := 0, main_updated := false,
                         errors := [] }, rotIndex := 0, done := [] }
            rw [hloop] at h2
            simpa using h2
          simp only [hloop]
          cases ok with
          | true =>
            simpa using ⟨hd, syncMainPhase_no_rotation_mainOut verify rots im st mainA⟩
          | false =>
            simpa using hd
        | some b =>
          by_cases hmem : b ∈ boards
          · simp only [if_pos hmem]
            rcases hloop : syncAgentsLoop verify rots false [b]
                (_paused_board_ids mems [b])
                { res := { agents_updated := 0, agents_skipped := 0, main_updated := false,
                           errors := [] }, rotIndex := 0, done := [] } agents with ⟨st, ok⟩
            have hd : st.done = agents.map Prod.fst := by
              have h2 := syncAgentsLoop_no_rotation_done verify rots [b]
                (_paused_board_ids mems [b]) agents
                { res := { agents_updated := 0, agents_skipped := 0, main_updated := false,
                           errors := [] }, rotIndex := 0, done := [] }
              rw [hloop] at h2
              simpa using h2
            simp only [hloop]
            cases ok with
            | true =>
              simpa using ⟨hd, syncMainPhase_no_rotation_mainOut verify rots im st mainA⟩
            | false =>
              simpa using hd
          · simp only [if_neg hmem]
            simp
  · intro st agent b env
    unfold syncAgentTokenAndProvision
    simp
  · intro st agent b env t h hprov ht hhash hh hv
    unfold syncAgentTokenAndProvision
    rw [hprov]
    simp [ht, hhash, hh, hv]

/-- Concrete instance of claim C10's theorem. -/
theorem sync_no_rotation_frame_witness :
    (sync_gateway_templates (fun _ _ => false) (fun _ => ("raw", "hash"))
        { url_present := true, probe := none, boards := [10], requested_board := none,
          memories := [],
          agents := [(⟨1, "a1", some 10, none, some "pbkdf2_sha256$1$aa$bb"⟩,
            ⟨.ok (some "tok"), .ok⟩)],
          include_main := false, rotate_tokens := false, mainAgent := none }).agentsOut =
      [⟨1, "a1", some 10, none, some "pbkdf2_sha256$1$aa$bb"⟩] := by
  have h := sync_no_rotation_frame (fun _ _ => false) (fun _ => ("raw", "hash"))
    { url_present := true, probe := none, boards := [10], requested_board := none,
      memories := [],
      agents := [(⟨1, "a1", some 10, none, some "pbkdf2_sha256$1$aa$bb"⟩,
        ⟨.ok (some "tok"), .ok⟩)],
      include_main := false, rotate_tokens := false, mainAgent := none } rfl
  simpa using h.1.1
